import Mathlib

/-!
Verification of the easyTTY core (device identity, udev rule codec, rule
store, control bridge) against its natural-language specification.

The C++ sources are shallowly embedded: `std::string` becomes `List Char`,
the file system and external commands become explicit oracle parameters,
and every function is translated line by line from
`src/include/common/Types.hpp`, `src/include/common/Utils.hpp`,
`src/src/common/Utils.cpp` and `src/src/udev/UdevManager.cpp`.
-/

namespace easytty

/-- Strings of the C++ program are embedded as lists of characters. -/
abbrev Str := List Char

/-- Convert a Lean string literal to the embedding's string type. -/
def str (s : String) : Str := s.data

/-- C `isspace` in the default locale: space, \t, \n, \v, \f, \r. -/
def isSpaceChar (c : Char) : Bool :=
  c = ' ' || c = '\t' || c = '\n' || c = '\x0b' || c = '\x0c' || c = '\x0d'

/-- C `isdigit` in the default locale. -/
def isDigitChar (c : Char) : Bool := '0' ≤ c && c ≤ '9'

/-- C `isalpha` in the default locale (ASCII letters). -/
def isAlphaChar (c : Char) : Bool := ('a' ≤ c && c ≤ 'z') || ('A' ≤ c && c ≤ 'Z')

/-- Hexadecimal digit, the character class `[0-9a-fA-F]` of the rule parser's
vendor/product regexes. -/
def isHexChar (c : Char) : Bool :=
  ('0' ≤ c && c ≤ '9') || ('a' ≤ c && c ≤ 'f') || ('A' ≤ c && c ≤ 'F')

/-- `utils::trim` (Utils.hpp): drop `isspace` characters from both ends. -/
def trim (s : Str) : Str :=
  ((s.dropWhile isSpaceChar).reverse.dropWhile isSpaceChar).reverse

/-- `std::string::find(pat) != npos`: substring containment. -/
def containsSub : Str → Str → Bool
  | [], pat => pat.isEmpty
  | c :: rest, pat => pat.isPrefixOf (c :: rest) || containsSub rest pat

/-- `utils::endsWith` (Utils.hpp): suffix test via size check and compare,
equivalent to list suffix. -/
def endsWithStr (s suffix : Str) : Bool := suffix.isSuffixOf s

/-- `fs::path(p).filename()`: the component after the last slash. -/
def filenameOf (p : Str) : Str := (p.reverse.takeWhile (· ≠ '/')).reverse

/-- `line.substr(line.find(":") + 1)`.  When the line has no colon, `find`
returns `npos` and `npos + 1` wraps to `0`, so the whole line is returned. -/
def substrAfterColon (line : Str) : Str :=
  let pre := line.takeWhile (· ≠ ':')
  if pre.length = line.length then line else line.drop (pre.length + 1)

/-- Value of a nonempty decimal digit string. -/
def digitsVal (ds : Str) : Nat := ds.foldl (fun a c => a * 10 + (c.toNat - 48)) 0

/-- `std::stoi` on a short string: skip leading whitespace, read an optional
sign and at least one decimal digit; `none` models the `std::invalid_argument`
that `stoi` throws when no digit is found. -/
def stoiOfChars (s : Str) : Option Int :=
  let t := s.dropWhile isSpaceChar
  match t with
  | '-' :: rest =>
      let ds := rest.takeWhile isDigitChar
      if ds.isEmpty then none else some (-(Int.ofNat (digitsVal ds)))
  | '+' :: rest =>
      let ds := rest.takeWhile isDigitChar
      if ds.isEmpty then none else some (Int.ofNat (digitsVal ds))
  | rest =>
      let ds := rest.takeWhile isDigitChar
      if ds.isEmpty then none else some (Int.ofNat (digitsVal ds))

/-- One capture attempt of `regex_search` at a fixed position, for the rule
parser's patterns `lit(cap)+"` with `cap` a character class that never
matches `"` (here `[0-9a-fA-F]` or `[^"]`).  The greedy engine takes the
maximal run of class characters; backtracking cannot help, because every
shorter run is followed by a class character, which is never the required
closing quote. -/
def scanCap (cap : Char → Bool) (rest : Str) : Option Str :=
  let run := rest.takeWhile cap
  if run.isEmpty then none
  else
    match rest.drop run.length with
    | '"' :: _ => some run
    | _ => none

/-- `std::regex_search(line, m, regex(lit ++ "(CAP+)\""))` where `CAP` is a
class not containing `"`: try every position left to right, matching the
literal `lit`, then a nonempty capture run, then a closing quote; return the
first successful capture. -/
def scanFor (lit : Str) (cap : Char → Bool) : Str → Option Str
  | [] => none
  | c :: cs =>
      if lit.isPrefixOf (c :: cs) then
        match scanCap cap ((c :: cs).drop lit.length) with
        | some run => some run
        | none => scanFor lit cap cs
      else scanFor lit cap cs

/-- Helper of `getLines`: accumulate the current line. -/
def getLinesAux : Str → Str → List Str
  | [], acc => if acc.isEmpty then [] else [acc]
  | c :: rest, acc =>
      if c = '\n' then acc :: getLinesAux rest [] else getLinesAux rest (acc ++ [c])

/-- `std::getline` applied repeatedly: split at newlines; a trailing newline
produces no extra empty line. -/
def getLines (s : Str) : List Str := getLinesAux s []

/-- `DeviceInfo` (Types.hpp): USB device attributes gathered by a scan. -/
structure DeviceInfo where
  devPath : Str
  sysPath : Str
  subsystem : Str
  vendor : Str
  vendorId : Str
  productId : Str
  serial : Str
  manufacturer : Str
  product : Str
  driver : Str
  devNode : Str
  busNum : Str
  devNum : Str
  interfaceNum : Str
deriving DecidableEq

/-- `DeviceInfo::isValid`: nonempty device path and vendor id. -/
def DeviceInfo.isValid (d : DeviceInfo) : Bool :=
  !d.devPath.isEmpty && !d.vendorId.isEmpty

/-- `DeviceInfo::getDisplayName`. -/
def DeviceInfo.getDisplayName (d : DeviceInfo) : Str :=
  if !d.product.isEmpty then d.product ++ str " (" ++ d.devNode ++ str ")"
  else d.devNode

/-- `UdevRule` (Types.hpp): one parsed persistent-naming rule. -/
structure UdevRule where
  name : Str
  vendorId : Str
  productId : Str
  serial : Str
  symlink : Str
  filePath : Str
  interfaceNum : Str
  priority : Int
  isActive : Bool
deriving DecidableEq

/-- `UdevRule::matchesDevice` (Types.hpp): vendor and product ids must be
equal; a rule with a serial requires the same device serial; a rule without
a serial rejects devices that have one. -/
def UdevRule.matchesDevice (r : UdevRule) (device : DeviceInfo) : Bool :=
  if r.vendorId ≠ device.vendorId || r.productId ≠ device.productId then false
  else if !r.serial.isEmpty && r.serial ≠ device.serial then false
  else if r.serial.isEmpty && !device.serial.isEmpty then false
  else true

/-- `OperationResult` (Types.hpp). -/
structure OperationResult where
  success : Bool
  message : Str
deriving DecidableEq

/-- `OperationResult::Success` with its default message. -/
def OperationResult.SuccessDefault : OperationResult :=
  { success := true, message := str "Operation completed successfully" }

/-- `OperationResult::Success` with an explicit message. -/
def OperationResult.Success (msg : Str) : OperationResult :=
  { success := true, message := msg }

/-- `OperationResult::Failure`. -/
def OperationResult.Failure (msg : Str) : OperationResult :=
  { success := false, message := msg }

/-- `utils::isValidSymlinkName` (Utils.hpp): nonempty, at most 64 characters,
and a full match of `^[a-zA-Z][a-zA-Z0-9_-]*$`. -/
def isValidSymlinkName (name : Str) : Bool :=
  if name.isEmpty || name.length > 64 then false
  else
    match name with
    | [] => false
    | c :: rest =>
        isAlphaChar c &&
        rest.all (fun x => isAlphaChar x || isDigitChar x || x = '_' || x = '-')

/-- Regex literal `ATTRS\{idVendor\}=="` of `UdevManager::parseRuleFile`. -/
def vendorPat : Str := str "ATTRS\x7bidVendor\x7d==\""

/-- Regex literal `ATTRS\{idProduct\}=="` of `UdevManager::parseRuleFile`. -/
def productPat : Str := str "ATTRS\x7bidProduct\x7d==\""

/-- Regex literal `ATTRS\{serial\}=="` of `UdevManager::parseRuleFile`. -/
def serialPat : Str := str "ATTRS\x7bserial\x7d==\""

/-- Regex literal `SYMLINK\+="` of `UdevManager::parseRuleFile`. -/
def symlinkPat : Str := str "SYMLINK+=\""

/-- One iteration of the `while (std::getline(file, line))` loop of
`UdevManager::parseRuleFile`: a `# Device:` marker anywhere in the line
updates the name; empty and comment lines are otherwise skipped; other lines
run the four independent regex extractors. -/
def processLine (r : UdevRule) (line : Str) : UdevRule :=
  let r :=
    if containsSub line (str "# Device:") then
      { r with name := trim (substrAfterColon line) }
    else r
  if line.isEmpty || line.head? = some '#' then r
  else
    let r := match scanFor vendorPat isHexChar line with
      | some v => { r with vendorId := v }
      | none => r
    let r := match scanFor productPat isHexChar line with
      | some v => { r with productId := v }
      | none => r
    let r := match scanFor serialPat (fun c => c ≠ '"') line with
      | some v => { r with serial := v }
      | none => r
    match scanFor symlinkPat (fun c => c ≠ '"') line with
      | some v => { r with symlink := v }
      | none => r

/-- `UdevManager::parseRuleFile`, given the file's path and its content
(the embedding separates reading the file from parsing it).  The priority
is `stoi` of the first two characters of the file name, defaulting to
`DEFAULT_PRIORITY = 99` when `stoi` throws; a rule without an extracted
vendor id or symlink is rejected; an empty name is backfilled with the
symlink. -/
def parseRuleFile (filePath content : Str) : Option UdevRule :=
  let filename := filenameOf filePath
  let prio : Int :=
    match stoiOfChars (filename.take 2) with
    | some v => v
    | none => 99
  let init : UdevRule :=
    { name := [], vendorId := [], productId := [], serial := [], symlink := [],
      filePath := filePath, interfaceNum := [], priority := prio, isActive := true }
  let r := (getLines content).foldl processLine init
  if r.vendorId.isEmpty || r.symlink.isEmpty then none
  else if r.name.isEmpty then some { r with name := r.symlink }
  else some r

/-- `UdevManager::generateRuleContent`.  `dateOut` is the output of
`utils::executeCommand("date")`, passed explicitly since the embedding keeps
external commands as parameters. -/
def generateRuleContent (device : DeviceInfo) (symlinkName : Str) (dateOut : Str) : Str :=
  str "# EasyTTY auto-generated rule\n"
  ++ str "# Device: " ++ device.getDisplayName ++ str "\n"
  ++ str "# Vendor: " ++ device.manufacturer ++ str " (" ++ device.vendorId ++ str ")\n"
  ++ str "# Product: " ++ device.product ++ str " (" ++ device.productId ++ str ")\n"
  ++ (if !device.serial.isEmpty then str "# Serial: " ++ device.serial ++ str "\n" else [])
  ++ str "# Original: " ++ device.devPath ++ str "\n"
  ++ str "# Created: " ++ dateOut ++ str "\n"
  ++ str "\n"
  ++ str "SUBSYSTEM==\"tty\", ATTRS\x7bidVendor\x7d==\"" ++ device.vendorId
  ++ str "\", ATTRS\x7bidProduct\x7d==\"" ++ device.productId ++ str "\""
  ++ (if !device.serial.isEmpty then str ", ATTRS\x7bserial\x7d==\"" ++ device.serial ++ str "\"" else [])
  ++ str ", SYMLINK+=\"" ++ symlinkName ++ str "\", MODE=\"0666\"\n"

/-- `UdevManager::generateRuleFileName`: `DEFAULT_PRIORITY` is 99. -/
def generateRuleFileName (symlinkName : Str) : Str :=
  str "99-easytty-" ++ symlinkName ++ str ".rules"

/-- The rule directory `/etc/udev/rules.d` as seen by the manager: whether
the directory exists, and the regular files in it as (full path, content)
pairs. -/
structure DiskState where
  dirExists : Bool
  files : List (Str × Str)
deriving DecidableEq

/-- `fs::exists(filePath)` for a path inside the rule directory. -/
def fileExistsB (disk : DiskState) (filePath : Str) : Bool :=
  disk.dirExists && disk.files.any (fun e => decide (e.1 = filePath))

/-- Write (create or overwrite) a file. -/
def setFile (files : List (Str × Str)) (filePath content : Str) : List (Str × Str) :=
  if files.any (fun e => decide (e.1 = filePath)) then
    files.map (fun e => if e.1 = filePath then (filePath, content) else e)
  else files ++ [(filePath, content)]

/-- Remove a file. -/
def removeFile (files : List (Str × Str)) (filePath : Str) : List (Str × Str) :=
  files.filter (fun e => decide (e.1 ≠ filePath))

/-- Lexicographic `operator<` on `std::string`. -/
def strLt : Str → Str → Bool
  | [], [] => false
  | [], _ :: _ => true
  | _ :: _, [] => false
  | a :: as, b :: bs => if a < b then true else if b < a then false else strLt as bs

/-- Insert a rule into a list sorted by symlink name. -/
def insertSorted (r : UdevRule) : List UdevRule → List UdevRule
  | [] => [r]
  | x :: xs => if strLt r.symlink x.symlink then r :: x :: xs else x :: insertSorted r xs

/-- The `std::sort` call of `UdevManager::loadExistingRules`, comparing by
symlink name (modeled by insertion sort: the result is a permutation sorted
by the same order). -/
def sortRules : List UdevRule → List UdevRule
  | [] => []
  | x :: xs => insertSorted x (sortRules xs)

/-- `UdevManager::loadExistingRules`: clear the cache; if the rule directory
exists, parse every regular file whose name contains `easytty` and ends in
`.rules`, dropping unparseable ones; sort by symlink name. -/
def loadExistingRules (disk : DiskState) : List UdevRule :=
  if disk.dirExists then
    sortRules (disk.files.filterMap (fun e =>
      let filename := filenameOf e.1
      if containsSub filename (str "easytty") && endsWithStr filename (str ".rules") then
        parseRuleFile e.1 e.2
      else none))
  else []

/-- A `UdevManager` instance together with the rule directory it acts on:
`rules_` is the in-memory cache, `disk` the external directory state. -/
structure MgrSys where
  rules_ : List UdevRule
  disk : DiskState
deriving DecidableEq

/-- The `UdevManager` constructor: load the cache from disk. -/
def initManager (disk : DiskState) : MgrSys :=
  { rules_ := loadExistingRules disk, disk := disk }

/-- `UdevManager::refresh` / the reload after a successful mutation. -/
def refresh (sys : MgrSys) : MgrSys :=
  { sys with rules_ := loadExistingRules sys.disk }

/-- `UdevManager::symlinkExists`: any cached rule with this symlink. -/
def symlinkExistsB (rules : List UdevRule) (symlinkName : Str) : Bool :=
  rules.any (fun r => decide (r.symlink = symlinkName))

/-- `UdevManager::ruleExists`: any cached rule with equal vendor and product
ids such that the device's serial is empty or equal to the rule's serial. -/
def ruleExists (rules : List UdevRule) (device : DeviceInfo) : Bool :=
  rules.any (fun r =>
    decide (r.vendorId = device.vendorId) &&
    decide (r.productId = device.productId) &&
    (device.serial.isEmpty || decide (r.serial = device.serial)))

/-- `UdevManager::writeRuleFile`.  `isRoot` selects the direct-write or the
`sudo tee` branch (the two differ only in the failure message); `writeOk`
models whether the write succeeded (`ofstream::is_open` for root,
`system(...) == 0` for the sudo path). -/
def writeRuleFile (disk : DiskState) (filePath content : Str) (isRoot writeOk : Bool) :
    OperationResult × DiskState :=
  if isRoot then
    if writeOk then
      (OperationResult.SuccessDefault, { disk with files := setFile disk.files filePath content })
    else (OperationResult.Failure (str "Failed to create rule file: " ++ filePath), disk)
  else
    if writeOk then
      (OperationResult.SuccessDefault, { disk with files := setFile disk.files filePath content })
    else (OperationResult.Failure (str "Failed to create rule file (sudo required)"), disk)

/-- `UdevManager::removeRuleFile`.  A missing file fails up front.  For root,
`removeOk` models `fs::remove` not throwing, with `errText` the exception
text; for the sudo path the code re-checks `fs::exists` after `sudo rm`, so
`removeOk` models the file actually being gone. -/
def removeRuleFile (disk : DiskState) (filePath : Str) (isRoot removeOk : Bool) (errText : Str) :
    OperationResult × DiskState :=
  if !fileExistsB disk filePath then
    (OperationResult.Failure (str "Rule file does not exist: " ++ filePath), disk)
  else if isRoot then
    if removeOk then
      (OperationResult.Success (str "Rule deleted successfully"),
       { disk with files := removeFile disk.files filePath })
    else (OperationResult.Failure (str "Failed to delete rule: " ++ errText), disk)
  else
    if removeOk then
      (OperationResult.Success (str "Rule deleted successfully"),
       { disk with files := removeFile disk.files filePath })
    else (OperationResult.Failure (str "Failed to delete rule file (sudo required)"), disk)

/-- `UdevManager::createRule`: validate the symlink name, the device, name
uniqueness and device-identity uniqueness, then render, write and reload.
`dateOut` feeds the `date` command output of `generateRuleContent`. -/
def createRule (sys : MgrSys) (device : DeviceInfo) (symlinkName : Str)
    (isRoot writeOk : Bool) (dateOut : Str) : OperationResult × MgrSys :=
  if !isValidSymlinkName symlinkName then
    (OperationResult.Failure (str "Invalid symlink name. Use only letters, numbers, underscores, and hyphens. Must start with a letter."), sys)
  else if !device.isValid then
    (OperationResult.Failure (str "Invalid device information"), sys)
  else if symlinkExistsB sys.rules_ symlinkName then
    (OperationResult.Failure (str "Symlink name '" ++ symlinkName ++ str "' is already in use"), sys)
  else
    match sys.rules_.find? (fun r =>
        decide (r.vendorId = device.vendorId) &&
        decide (r.productId = device.productId) &&
        (device.serial.isEmpty || decide (r.serial = device.serial))) with
    | some r =>
        (OperationResult.Failure (str "A rule for this device already exists as '" ++ r.symlink ++ str "'"), sys)
    | none =>
        let content := generateRuleContent device symlinkName dateOut
        let fileName := generateRuleFileName symlinkName
        let filePath := str "/etc/udev/rules.d" ++ str "/" ++ fileName
        let wr := writeRuleFile sys.disk filePath content isRoot writeOk
        if !wr.1.success then (wr.1, { sys with disk := wr.2 })
        else
          (OperationResult.Success (str "Rule created successfully: /dev/" ++ symlinkName),
           refresh { sys with disk := wr.2 })

/-- `UdevManager::deleteRuleFile`: remove the file, reloading the cache only
on success. -/
def deleteRuleFile (sys : MgrSys) (filePath : Str) (isRoot removeOk : Bool) (errText : Str) :
    OperationResult × MgrSys :=
  let rm := removeRuleFile sys.disk filePath isRoot removeOk errText
  if rm.1.success then (rm.1, refresh { sys with disk := rm.2 })
  else (rm.1, { sys with disk := rm.2 })

/-- `UdevManager::deleteRule`: find the rule by symlink or custom name and
delete its backing file. -/
def deleteRule (sys : MgrSys) (ruleName : Str) (isRoot removeOk : Bool) (errText : Str) :
    OperationResult × MgrSys :=
  match sys.rules_.find? (fun r => decide (r.symlink = ruleName) || decide (r.name = ruleName)) with
  | none => (OperationResult.Failure (str "Rule not found: " ++ ruleName), sys)
  | some r => deleteRuleFile sys r.filePath isRoot removeOk errText

/-- Result of one external command: its combined stdout+stderr text and its
exit status.  The exit status is carried only to record that the program
never reads it. -/
structure CmdResult where
  output : Str
  exitCode : Int

/-- `utils::executeCommand` (Utils.cpp): run the command, collect its
combined output, and `trim` it; the exit status of `pclose` is discarded. -/
def executeCommand (env : Str → CmdResult) (cmd : Str) : Str := trim (env cmd).output

/-- The command line of `UdevManager::reloadRules`. -/
def reloadCmd : Str := str "sudo udevadm control --reload-rules 2>&1"

/-- The command line of `UdevManager::triggerRules`. -/
def triggerCmd : Str := str "sudo udevadm trigger 2>&1"

/-- `UdevManager::reloadRules`, with a log of the executed commands to make
the invocation sequence observable. -/
def reloadRulesT (env : Str → CmdResult) (log : List Str) : OperationResult × List Str :=
  let output := executeCommand env reloadCmd
  let res :=
    if containsSub output (str "error") || containsSub output (str "failed") then
      OperationResult.Failure (str "Failed to reload rules: " ++ output)
    else OperationResult.Success (str "Rules reloaded successfully")
  (res, log ++ [reloadCmd])

/-- `UdevManager::triggerRules`, with a command log. -/
def triggerRulesT (env : Str → CmdResult) (log : List Str) : OperationResult × List Str :=
  let output := executeCommand env triggerCmd
  let res :=
    if containsSub output (str "error") || containsSub output (str "failed") then
      OperationResult.Failure (str "Failed to trigger rules: " ++ output)
    else OperationResult.Success (str "Rules triggered successfully")
  (res, log ++ [triggerCmd])

/-- `UdevManager::applyRules`: reload, and only when that succeeded trigger,
returning the first failure. -/
def applyRulesT (env : Str → CmdResult) (log : List Str) : OperationResult × List Str :=
  let rl := reloadRulesT env log
  if !rl.1.success then rl
  else
    let tr := triggerRulesT env rl.2
    if !tr.1.success then tr
    else (OperationResult.Success (str "Rules reloaded and applied successfully"), tr.2)

/-- `UdevManager::reloadRules` proper. -/
def reloadRules (env : Str → CmdResult) : OperationResult := (reloadRulesT env []).1

/-- `UdevManager::triggerRules` proper. -/
def triggerRules (env : Str → CmdResult) : OperationResult := (triggerRulesT env []).1

/-- `UdevManager::applyRules` proper. -/
def applyRules (env : Str → CmdResult) : OperationResult := (applyRulesT env []).1

/-- Join lines with newline terminators, the line discipline of the rendered
rule file content. -/
def joinedLines : List Str → Str
  | [] => []
  | l :: ls => l ++ '\n' :: joinedLines ls

/-- The match-and-rename line of `generateRuleContent`, without its trailing
newline. -/
def ruleLineOf (d : DeviceInfo) (n : Str) : Str :=
  str "SUBSYSTEM==\"tty\", ATTRS\x7bidVendor\x7d==\"" ++ d.vendorId
  ++ str "\", ATTRS\x7bidProduct\x7d==\"" ++ d.productId ++ str "\""
  ++ (if !d.serial.isEmpty then str ", ATTRS\x7bserial\x7d==\"" ++ d.serial ++ str "\"" else [])
  ++ str ", SYMLINK+=\"" ++ n ++ str "\", MODE=\"0666\""

/-- The comment header lines of `generateRuleContent`, including the blank
separator line. -/
def headerLines (d : DeviceInfo) (ts : Str) : List Str :=
  [str "# EasyTTY auto-generated rule",
   str "# Device: " ++ d.getDisplayName,
   str "# Vendor: " ++ d.manufacturer ++ str " (" ++ d.vendorId ++ str ")",
   str "# Product: " ++ d.product ++ str " (" ++ d.productId ++ str ")"]
  ++ (if !d.serial.isEmpty then [str "# Serial: " ++ d.serial] else [])
  ++ [str "# Original: " ++ d.devPath,
      str "# Created: " ++ ts,
      []]

/-- All lines of the rendered rule file content. -/
def renderLines (d : DeviceInfo) (n ts : Str) : List Str :=
  headerLines d ts ++ [ruleLineOf d n]

/-- The spec's naming grammar, stated from its words: first character a
letter, remaining characters letters/digits/underscore/hyphen, length at
most 64.  Used to compare `utils::isValidSymlinkName` against the spec. -/
def specNamingGrammar (n : Str) : Prop :=
  match n with
  | [] => False
  | c :: rest =>
      isAlphaChar c = true ∧ (c :: rest : Str).length ≤ 64 ∧
      ∀ x ∈ rest, isAlphaChar x = true ∨ isDigitChar x = true ∨ x = '_' ∨ x = '-'

/-- Priority actually derived from a rule file name: `stoi` of the first two
characters, 99 when that throws. -/
def stoiTwoDefault (fname : Str) : Int :=
  match stoiOfChars (fname.take 2) with
  | some v => v
  | none => 99

/-- Cache well-formedness: every cached rule has a nonempty vendor id,
symlink and name. -/
def goodCache (rules : List UdevRule) : Prop :=
  ∀ r ∈ rules, r.vendorId ≠ [] ∧ r.symlink ≠ [] ∧ r.name ≠ []

/-- A cached rule carrying a serial, bound to symlink `foo`. -/
def sampleRule : UdevRule :=
  { name := str "foo", vendorId := str "0403", productId := str "6001",
    serial := str "X", symlink := str "foo",
    filePath := str "/etc/udev/rules.d/99-easytty-foo.rules",
    interfaceNum := [], priority := 99, isActive := true }

/-- A valid device sharing `sampleRule`'s vendor and product but carrying no
serial. -/
def deviceNoSerial : DeviceInfo :=
  { devPath := str "/dev/ttyUSB0", sysPath := [], subsystem := str "tty",
    vendor := [], vendorId := str "0403", productId := str "6001", serial := [],
    manufacturer := [], product := [], driver := [], devNode := str "ttyUSB0",
    busNum := str "1", devNum := str "5", interfaceNum := [] }

/-- A fully populated valid device. -/
def sampleDevice : DeviceInfo :=
  { devPath := str "/dev/ttyUSB0", sysPath := [], subsystem := str "tty",
    vendor := [], vendorId := str "0403", productId := str "6001",
    serial := str "A50285BI", manufacturer := str "FTDI", product := str "FT232R",
    driver := str "ftdi_sio", devNode := str "ttyUSB0", busNum := str "1",
    devNum := str "5", interfaceNum := str "00" }

/-- A valid device whose vendor id is not hexadecimal. -/
def deviceNonHexVendor : DeviceInfo :=
  { devPath := str "/dev/ttyUSB0", sysPath := [], subsystem := str "tty",
    vendor := [], vendorId := str "zz", productId := [], serial := [],
    manufacturer := [], product := [], driver := [], devNode := [],
    busNum := [], devNum := [], interfaceNum := [] }

/-- A rule directory holding exactly `sampleRule`'s file. -/
def sampleDisk : DiskState :=
  { dirExists := true,
    files := [(str "/etc/udev/rules.d/99-easytty-foo.rules",
               str "SUBSYSTEM==\"tty\", ATTRS\x7bidVendor\x7d==\"0403\", ATTRS\x7bidProduct\x7d==\"6001\", ATTRS\x7bserial\x7d==\"X\", SYMLINK+=\"foo\", MODE=\"0666\"\n")] }

/-- A manager whose cache holds exactly `sampleRule`. -/
def sampleSys : MgrSys := { rules_ := [sampleRule], disk := sampleDisk }

/-- A rule file path whose name has the three-digit priority prefix `100`. -/
def path100 : Str := str "/etc/udev/rules.d/100-easytty-x.rules"

/-- Content of a minimal parseable rule file. -/
def content100 : Str :=
  str "SUBSYSTEM==\"tty\", ATTRS\x7bidVendor\x7d==\"0403\", ATTRS\x7bidProduct\x7d==\"6001\", SYMLINK+=\"x1\", MODE=\"0666\"\n"

/-- The rule `parseRuleFile path100 content100` yields. -/
def rule100 : UdevRule :=
  { name := str "x1", vendorId := str "0403", productId := str "6001",
    serial := [], symlink := str "x1", filePath := path100,
    interfaceNum := [], priority := 10, isActive := true }

/-- A rule directory holding exactly the `path100` file. -/
def disk100 : DiskState := { dirExists := true, files := [(path100, content100)] }

/-- A command environment whose every command prints an error marker. -/
def envErr : Str → CmdResult := fun _ => { output := str "xx error", exitCode := 0 }

/-- Decidability of the spec-side naming grammar. -/
instance instDecSpecNamingGrammar : (n : Str) → Decidable (specNamingGrammar n)
  | [] => isFalse id
  | c :: rest =>
      inferInstanceAs (Decidable (isAlphaChar c = true ∧ (c :: rest : Str).length ≤ 64 ∧
        ∀ x ∈ rest, isAlphaChar x = true ∨ isDigitChar x = true ∨ x = '_' ∨ x = '-'))

/-- Decidability of cache well-formedness. -/
instance instDecGoodCache (rules : List UdevRule) : Decidable (goodCache rules) :=
  inferInstanceAs (Decidable (∀ r ∈ rules, r.vendorId ≠ [] ∧ r.symlink ≠ [] ∧ r.name ≠ []))

/-- Helper: `removeRuleFile` on a missing path fails up front and leaves the
directory untouched. -/
lemma removeRuleFile_missing (disk : DiskState) (p : Str) (ir ro : Bool) (et : Str)
    (h : fileExistsB disk p = false) :
    removeRuleFile disk p ir ro et =
      (OperationResult.Failure (str "Rule file does not exist: " ++ p), disk) := by
  unfold removeRuleFile
  simp [h]

/-- Helper: `deleteRuleFile` either keeps the cache or succeeds. -/
lemma deleteRuleFile_cases (sys : MgrSys) (p : Str) (ir ro : Bool) (et : Str) :
    (deleteRuleFile sys p ir ro et).2.rules_ = sys.rules_ ∨
    (deleteRuleFile sys p ir ro et).1.success = true := by
  by_cases h : (removeRuleFile sys.disk p ir ro et).1.success
  · right; simp [deleteRuleFile, h]
  · left; simp [deleteRuleFile, h]

/-- Helper: `createRule` either keeps the cache or succeeds. -/
lemma createRule_cases (sys : MgrSys) (d : DeviceInfo) (n : Str) (ir w : Bool) (dt : Str) :
    (createRule sys d n ir w dt).2.rules_ = sys.rules_ ∨
    (createRule sys d n ir w dt).1.success = true := by
  unfold createRule
  split
  · exact Or.inl rfl
  split
  · exact Or.inl rfl
  split
  · exact Or.inl rfl
  split
  · exact Or.inl rfl
  by_cases hw : (writeRuleFile sys.disk (str "/etc/udev/rules.d" ++ (str "/" ++
      generateRuleFileName n)) (generateRuleContent d n dt) ir w).1.success
  · right; simp [hw, OperationResult.Success]
  · left; simp [hw]

/-- C1: `UdevRule::matchesDevice` returns true iff vendor and product ids are
equal and the serial-presence conditions agree: a nonempty rule serial must
equal the device serial, and an empty rule serial requires an empty device
serial (so a rule without a serial never matches a device with one, and
vice versa). -/
theorem matchesDevice_spec (r : UdevRule) (d : DeviceInfo) :
    r.matchesDevice d = true ↔
      r.vendorId = d.vendorId ∧ r.productId = d.productId ∧
      (r.serial ≠ [] → r.serial = d.serial) ∧ (r.serial = [] → d.serial = []) := by
  unfold UdevRule.matchesDevice
  by_cases h1 : r.vendorId = d.vendorId <;> by_cases h2 : r.productId = d.productId <;>
    by_cases h3 : r.serial = [] <;> by_cases h4 : d.serial = [] <;>
      simp [h1, h2, h3, h4, List.isEmpty_iff]

/-- C4 counterexample: the claim says `ruleExists` is true iff some cached
rule satisfies `matchesDevice`.  With a cache holding one rule that carries
serial `X` and a device with the same vendor/product but no serial,
`ruleExists` returns true although no cached rule matches the device under
`matchesDevice`. -/
theorem ruleExists_counterexample :
    ruleExists [sampleRule] deviceNoSerial = true ∧
    ∀ r ∈ [sampleRule], r.matchesDevice deviceNoSerial = false := by decide

/-- C4 amended: `ruleExists` is true iff some cached rule has equal vendor
and product ids and the device's serial is empty or equals the rule's serial
(a serial-less device is reported as covered by any rule sharing its vendor
and product, even a rule that carries a serial). -/
theorem ruleExists_iff (rules : List UdevRule) (d : DeviceInfo) :
    ruleExists rules d = true ↔
      ∃ r ∈ rules, r.vendorId = d.vendorId ∧ r.productId = d.productId ∧
        (d.serial = [] ∨ r.serial = d.serial) := by
  simp [ruleExists, List.any_eq_true, List.isEmpty_iff, and_assoc]

/-- C2 counterexample: the claim says the duplicate-binding failure occurs
iff some cached rule matches the device under `matchesDevice`.  With a cache
holding one rule carrying serial `X` and a serial-less device sharing its
vendor and product, `createRule` reports the duplicate-device conflict even
though no cached rule matches the device under `matchesDevice`. -/
theorem createRule_dup_counterexample :
    (createRule sampleSys deviceNoSerial (str "bar") true true (str "d")).1 =
      OperationResult.Failure (str "A rule for this device already exists as 'foo'") ∧
    (createRule sampleSys deviceNoSerial (str "bar") true true (str "d")).2 = sampleSys ∧
    ∀ r ∈ sampleSys.rules_, r.matchesDevice deviceNoSerial = false := by decide

/-- C2 amended: for a valid device and a grammatical, unused name (and a
write that succeeds), `createRule` fails iff some cached rule has equal
vendor and product ids and the device's serial is empty or equals the rule's
serial — the duplicate check uses this predicate, not `matchesDevice`, so a
serial-less device conflicts even with rules that carry a serial. -/
theorem createRule_dup_iff (sys : MgrSys) (d : DeviceInfo) (n dateOut : Str) (isRoot : Bool)
    (hname : isValidSymlinkName n = true) (hdev : d.isValid = true)
    (hfree : symlinkExistsB sys.rules_ n = false) :
    ((createRule sys d n isRoot true dateOut).1.success = false ↔
      ∃ r ∈ sys.rules_, r.vendorId = d.vendorId ∧ r.productId = d.productId ∧
        (d.serial = [] ∨ r.serial = d.serial)) := by
  unfold createRule
  rw [hname, hdev, hfree]
  simp only [Bool.not_true, Bool.false_eq_true, if_false]
  cases hfind : sys.rules_.find? (fun r =>
      decide (r.vendorId = d.vendorId) && decide (r.productId = d.productId) &&
      (d.serial.isEmpty || decide (r.serial = d.serial))) with
  | none =>
      have hall := List.find?_eq_none.mp hfind
      simp only [writeRuleFile, refresh]
      constructor
      · intro h
        by_cases hr : isRoot <;>
          simp [hr, OperationResult.Success, OperationResult.SuccessDefault] at h
      · rintro ⟨r, hr, h1, h2, h3⟩
        have hnr := hall r hr
        simp only [Bool.and_eq_true, Bool.or_eq_true, decide_eq_true_eq, List.isEmpty_iff,
          not_and, not_or] at hnr
        obtain ⟨c1, c2⟩ := hnr ⟨h1, h2⟩
        cases h3 <;> contradiction
  | some r =>
      have hp := List.find?_some hfind
      have hm := List.mem_of_find?_eq_some hfind
      simp only [Bool.and_eq_true, Bool.or_eq_true, decide_eq_true_eq, List.isEmpty_iff] at hp
      simp only [OperationResult.Failure]
      constructor
      · intro _
        exact ⟨r, hm, by tauto⟩
      · intro _; trivial

/-- C2 witness: the amended equivalence applied to the concrete duplicate
scenario. -/
theorem createRule_dup_iff_witness :
    (createRule sampleSys deviceNoSerial (str "bar") true true (str "d")).1.success = false :=
  (createRule_dup_iff sampleSys deviceNoSerial (str "bar") (str "d") true
    (by decide) (by decide) (by decide)).mpr
    ⟨sampleRule, by decide, by decide, by decide, Or.inl (by decide)⟩

/-- C5: a failed `createRule`, `deleteRule` or `deleteRuleFile` leaves the
in-memory cache exactly as it was (the reload runs only after the file
operation succeeded), and `deleteRuleFile` on a path that does not exist on
disk fails and leaves the whole manager state untouched. -/
theorem failed_mutation_keeps_cache (sys : MgrSys) (d : DeviceInfo)
    (n path ruleName errText dateOut : Str) (isRoot writeOk removeOk : Bool) :
    ((createRule sys d n isRoot writeOk dateOut).1.success = false →
        (createRule sys d n isRoot writeOk dateOut).2.rules_ = sys.rules_) ∧
    ((deleteRule sys ruleName isRoot removeOk errText).1.success = false →
        (deleteRule sys ruleName isRoot removeOk errText).2.rules_ = sys.rules_) ∧
    ((deleteRuleFile sys path isRoot removeOk errText).1.success = false →
        (deleteRuleFile sys path isRoot removeOk errText).2.rules_ = sys.rules_) ∧
    (fileExistsB sys.disk path = false →
        (deleteRuleFile sys path isRoot removeOk errText).1 =
          OperationResult.Failure (str "Rule file does not exist: " ++ path) ∧
        (deleteRuleFile sys path isRoot removeOk errText).2 = sys) := by
  refine ⟨?_, ?_, ?_, ?_⟩
  · intro hf
    rcases createRule_cases sys d n isRoot writeOk dateOut with h | h
    · exact h
    · rw [h] at hf; cases hf
  · intro hf
    unfold deleteRule at hf ⊢
    split at hf
    · rfl
    · rename_i r hr
      rcases deleteRuleFile_cases sys r.filePath isRoot removeOk errText with h | h
      · exact h
      · rw [h] at hf; cases hf
  · intro hf
    rcases deleteRuleFile_cases sys path isRoot removeOk errText with h | h
    · exact h
    · rw [h] at hf; cases hf
  · intro h
    have := removeRuleFile_missing sys.disk path isRoot removeOk errText h
    simp [deleteRuleFile, this, OperationResult.Failure]

/-- C5 witness: deleting a file absent from the sample directory fails and
keeps the manager state. -/
theorem failed_mutation_keeps_cache_witness :
    (deleteRuleFile sampleSys (str "/etc/udev/rules.d/nope.rules") true true []).1 =
      OperationResult.Failure (str "Rule file does not exist: " ++ str "/etc/udev/rules.d/nope.rules") ∧
    (deleteRuleFile sampleSys (str "/etc/udev/rules.d/nope.rules") true true []).2 = sampleSys :=
  (failed_mutation_keeps_cache sampleSys deviceNoSerial [] (str "/etc/udev/rules.d/nope.rules")
    [] [] [] true true true).2.2.2 (by decide)

/-- Helper: the model of `utils::isValidSymlinkName` agrees with the spec's
naming grammar. -/
lemma isValidSymlinkName_iff (n : Str) : isValidSymlinkName n = true ↔ specNamingGrammar n := by
  cases n with
  | nil => simp [isValidSymlinkName, specNamingGrammar]
  | cons c rest =>
      unfold isValidSymlinkName specNamingGrammar
      constructor
      · intro h
        split at h
        · cases h
        · rename_i hc
          simp only [List.isEmpty_cons, Bool.false_or, Bool.not_eq_true, decide_eq_false_iff_not,
            Nat.not_lt] at hc
          simp only [Bool.and_eq_true, List.all_eq_true, Bool.or_eq_true, decide_eq_true_eq] at h
          refine ⟨h.1, hc, fun x hx => ?_⟩
          rcases h.2 x hx with (((h' | h') | h') | h') <;> tauto
      · rintro ⟨h1, h2, h3⟩
        rw [if_neg]
        · simp only [Bool.and_eq_true, List.all_eq_true, Bool.or_eq_true, decide_eq_true_eq]
          exact ⟨h1, fun x hx => by rcases h3 x hx with h | h | h | h <;> tauto⟩
        · simp only [List.isEmpty_cons, Bool.false_or, Bool.not_eq_true, decide_eq_false_iff_not,
            Nat.not_lt]
          exact h2

/-- C6: `createRule` rejects every name violating the naming grammar with
the invalid-name failure, writing nothing and leaving the whole manager
state unchanged, and the validation predicate accepts exactly the grammar's
names (first character a letter, then letters/digits/underscore/hyphen,
length at most 64). -/
theorem symlinkName_validation_spec (sys : MgrSys) (d : DeviceInfo) (n dateOut : Str)
    (isRoot writeOk : Bool) :
    (isValidSymlinkName n = true ↔ specNamingGrammar n) ∧
    (¬ specNamingGrammar n →
      createRule sys d n isRoot writeOk dateOut =
        (OperationResult.Failure (str "Invalid symlink name. Use only letters, numbers, underscores, and hyphens. Must start with a letter."), sys)) := by
  refine ⟨isValidSymlinkName_iff n, fun hbad => ?_⟩
  have hv : isValidSymlinkName n = false := by
    cases h : isValidSymlinkName n
    · rfl
    · exact absurd ((isValidSymlinkName_iff n).mp h) hbad
  simp [createRule, hv]

/-- C6 witness: the rejection applied to `"1abc"`, `"ab cd"` and a
65-character name. -/
theorem symlinkName_validation_spec_witness :
    createRule sampleSys sampleDevice (str "1abc") true true (str "d") =
      (OperationResult.Failure (str "Invalid symlink name. Use only letters, numbers, underscores, and hyphens. Must start with a letter."), sampleSys) ∧
    createRule sampleSys sampleDevice (str "ab cd") true true (str "d") =
      (OperationResult.Failure (str "Invalid symlink name. Use only letters, numbers, underscores, and hyphens. Must start with a letter."), sampleSys) ∧
    createRule sampleSys sampleDevice (List.replicate 65 'a') true true (str "d") =
      (OperationResult.Failure (str "Invalid symlink name. Use only letters, numbers, underscores, and hyphens. Must start with a letter."), sampleSys) :=
  ⟨(symlinkName_validation_spec sampleSys sampleDevice (str "1abc") (str "d") true true).2
      (by decide),
   (symlinkName_validation_spec sampleSys sampleDevice (str "ab cd") (str "d") true true).2
      (by decide),
   (symlinkName_validation_spec sampleSys sampleDevice (List.replicate 65 'a') (str "d") true true).2
      (by decide)⟩

/-- Helper: `processLine` never changes the priority or the file path. -/
lemma processLine_priority (r : UdevRule) (line : Str) :
    (processLine r line).priority = r.priority ∧ (processLine r line).filePath = r.filePath := by
  unfold processLine
  split <;> (try split) <;>
    (first
      | constructor <;> rfl
      | (repeat' split) <;> constructor <;> rfl)

/-- Helper: the parse loop never changes the priority or the file path. -/
lemma foldl_processLine_priority (lines : List Str) (r : UdevRule) :
    ((lines.foldl processLine r).priority = r.priority) ∧
    ((lines.foldl processLine r).filePath = r.filePath) := by
  induction lines generalizing r with
  | nil => exact ⟨rfl, rfl⟩
  | cons l ls ih =>
      simp only [List.foldl_cons]
      obtain ⟨h1, h2⟩ := processLine_priority r l
      obtain ⟨g1, g2⟩ := ih (processLine r l)
      exact ⟨g1.trans h1, g2.trans h2⟩

/-- C7 counterexample: the claim says the numeric prefix of the file name
becomes the priority, so `100-easytty-x.rules` should yield 100.  The store
reload of that file actually yields priority 10, because the code applies
`stoi` to only the first two characters of the file name. -/
theorem parse_priority_counterexample :
    (loadExistingRules disk100).map (fun r => r.priority) = [10] ∧ (10 : Int) ≠ 100 := by
  constructor
  · decide
  · decide

/-- C7 amended: every rule accepted by the parse path gets as priority the
`stoi` value of the first two characters of its file name, 99 when `stoi`
finds no digits there; in particular `100-easytty-x.rules` yields 10, not
100, while two-digit prefixes and digitless names behave as the claim
says. -/
theorem parse_priority_spec (filePath content : Str) (r : UdevRule)
    (h : parseRuleFile filePath content = some r) :
    r.priority = stoiTwoDefault (filenameOf filePath) ∧
    stoiTwoDefault (str "100-easytty-x.rules") = 10 ∧
    stoiTwoDefault (str "99-easytty-x.rules") = 99 ∧
    stoiTwoDefault (str "easytty-x.rules") = 99 := by
  refine ⟨?_, by decide, by decide, by decide⟩
  unfold parseRuleFile at h
  dsimp only at h
  split at h
  · cases h
  · split at h <;>
    · injection h with h
      subst h
      exact (foldl_processLine_priority (getLines content) _).1

/-- C7 witness: the amended statement applied to the parsed `100-…` file. -/
theorem parse_priority_spec_witness :
    rule100.priority = stoiTwoDefault (filenameOf path100) ∧
    stoiTwoDefault (str "100-easytty-x.rules") = 10 ∧
    stoiTwoDefault (str "99-easytty-x.rules") = 99 ∧
    stoiTwoDefault (str "easytty-x.rules") = 99 :=
  parse_priority_spec path100 content100 rule100 (by decide)

/-- C8: `applyRules` runs reload and then trigger, short-circuiting on a
reload failure (the trace shows the trigger command is never executed), and
`reloadRules`/`triggerRules` fail exactly when the command's combined output
contains `error` or `failed`; the environment carries an arbitrary exit code
that the classification never consults. -/
theorem controlBridge_spec (env : Str → CmdResult) :
    ((reloadRules env).success = false ↔
      (containsSub (executeCommand env reloadCmd) (str "error") = true ∨
       containsSub (executeCommand env reloadCmd) (str "failed") = true)) ∧
    ((triggerRules env).success = false ↔
      (containsSub (executeCommand env triggerCmd) (str "error") = true ∨
       containsSub (executeCommand env triggerCmd) (str "failed") = true)) ∧
    ((reloadRules env).success = false →
      applyRulesT env [] = (reloadRules env, [reloadCmd])) ∧
    ((reloadRules env).success = true →
      (applyRulesT env []).2 = [reloadCmd, triggerCmd] ∧
      ((triggerRules env).success = false → applyRules env = triggerRules env) ∧
      ((triggerRules env).success = true →
        applyRules env = OperationResult.Success (str "Rules reloaded and applied successfully"))) := by
  by_cases h1 : (containsSub (executeCommand env reloadCmd) (str "error") ||
      containsSub (executeCommand env reloadCmd) (str "failed")) = true <;>
    by_cases h2 : (containsSub (executeCommand env triggerCmd) (str "error") ||
        containsSub (executeCommand env triggerCmd) (str "failed")) = true <;>
      simp_all [reloadRules, triggerRules, applyRules, reloadRulesT, triggerRulesT, applyRulesT,
        OperationResult.Success, OperationResult.Failure]

/-- C8 witness: with an environment whose output carries an error marker,
`applyRules` returns the reload failure and the trace holds only the reload
command. -/
theorem controlBridge_spec_witness :
    applyRulesT envErr [] = (reloadRules envErr, [reloadCmd]) :=
  (controlBridge_spec envErr).2.2.1 (by decide)

/-- Helper: a parsed rule always has a nonempty vendor id, symlink and name
(`parseRuleFile` rejects the first two and backfills the name with the
symlink). -/
lemma parseRuleFile_good (p c : Str) (r : UdevRule) (h : parseRuleFile p c = some r) :
    r.vendorId ≠ [] ∧ r.symlink ≠ [] ∧ r.name ≠ [] := by
  unfold parseRuleFile at h
  dsimp only at h
  split at h
  · cases h
  · rename_i hne
    simp only [Bool.or_eq_true, List.isEmpty_iff, not_or] at hne
    push_neg at hne
    split at h <;> injection h with h <;> subst h
    · exact ⟨hne.1, hne.2, hne.2⟩
    · rename_i hname
      simp only [List.isEmpty_iff] at hname
      exact ⟨hne.1, hne.2, by simpa using hname⟩

/-- Helper: membership in `insertSorted`. -/
lemma mem_insertSorted (r x : UdevRule) (l : List UdevRule) :
    x ∈ insertSorted r l ↔ x = r ∨ x ∈ l := by
  induction l with
  | nil => simp [insertSorted]
  | cons a as ih =>
      unfold insertSorted
      split <;> (simp [ih]; try tauto)

/-- Helper: `sortRules` permutes its input. -/
lemma mem_sortRules (x : UdevRule) (l : List UdevRule) : x ∈ sortRules l ↔ x ∈ l := by
  induction l with
  | nil => simp [sortRules]
  | cons a as ih => simp [sortRules, mem_insertSorted, ih]

/-- Helper: a reloaded cache is always well-formed. -/
lemma loadExistingRules_good (disk : DiskState) : goodCache (loadExistingRules disk) := by
  intro r hr
  unfold loadExistingRules at hr
  split at hr
  · rw [mem_sortRules] at hr
    obtain ⟨e, _, he⟩ := List.mem_filterMap.mp hr
    dsimp only at he
    split at he
    · exact parseRuleFile_good e.1 e.2 r he
    · cases he
  · cases hr

/-- Helper: `deleteRuleFile` keeps the cache or replaces it by a reload. -/
lemma deleteRuleFile_rules_shape (sys : MgrSys) (p : Str) (ir ro : Bool) (et : Str) :
    (deleteRuleFile sys p ir ro et).2.rules_ = sys.rules_ ∨
    ∃ dk, (deleteRuleFile sys p ir ro et).2.rules_ = loadExistingRules dk := by
  by_cases h : (removeRuleFile sys.disk p ir ro et).1.success
  · right
    refine ⟨(removeRuleFile sys.disk p ir ro et).2, ?_⟩
    simp [deleteRuleFile, h, refresh]
  · left; simp [deleteRuleFile, h]

/-- Helper: `createRule` keeps the cache or replaces it by a reload. -/
lemma createRule_rules_shape (sys : MgrSys) (d : DeviceInfo) (n : Str) (ir w : Bool) (dt : Str) :
    (createRule sys d n ir w dt).2.rules_ = sys.rules_ ∨
    ∃ dk, (createRule sys d n ir w dt).2.rules_ = loadExistingRules dk := by
  unfold createRule
  split
  · exact Or.inl rfl
  split
  · exact Or.inl rfl
  split
  · exact Or.inl rfl
  split
  · exact Or.inl rfl
  by_cases hw : (writeRuleFile sys.disk (str "/etc/udev/rules.d" ++ (str "/" ++
      generateRuleFileName n)) (generateRuleContent d n dt) ir w).1.success
  · right
    refine ⟨(writeRuleFile sys.disk (str "/etc/udev/rules.d" ++ (str "/" ++
      generateRuleFileName n)) (generateRuleContent d n dt) ir w).2, ?_⟩
    simp [hw, refresh]
  · left; simp [hw]

/-- C9: after construction and after every store operation, every cached
rule has a nonempty vendor id, symlink and name — construction and every
successful mutation rebuild the cache through `parseRuleFile`, which rejects
records missing vendor id or symlink and backfills an empty name with the
symlink, and failed mutations keep the previous cache. -/
theorem cache_field_invariant (disk : DiskState) (sys : MgrSys) (d : DeviceInfo)
    (n path ruleName errText dateOut : Str) (isRoot writeOk removeOk : Bool) :
    goodCache (initManager disk).rules_ ∧
    (goodCache sys.rules_ → goodCache (createRule sys d n isRoot writeOk dateOut).2.rules_) ∧
    (goodCache sys.rules_ → goodCache (deleteRule sys ruleName isRoot removeOk errText).2.rules_) ∧
    (goodCache sys.rules_ → goodCache (deleteRuleFile sys path isRoot removeOk errText).2.rules_) ∧
    goodCache (refresh sys).rules_ := by
  refine ⟨loadExistingRules_good disk, ?_, ?_, ?_, loadExistingRules_good sys.disk⟩
  · intro hg
    rcases createRule_rules_shape sys d n isRoot writeOk dateOut with h | ⟨dk, h⟩
    · rw [h]; exact hg
    · rw [h]; exact loadExistingRules_good dk
  · intro hg
    unfold deleteRule
    split
    · exact hg
    · rename_i r _
      rcases deleteRuleFile_rules_shape sys r.filePath isRoot removeOk errText with h | ⟨dk, h⟩
      · rw [h]; exact hg
      · rw [h]; exact loadExistingRules_good dk
  · intro hg
    rcases deleteRuleFile_rules_shape sys path isRoot removeOk errText with h | ⟨dk, h⟩
    · rw [h]; exact hg
    · rw [h]; exact loadExistingRules_good dk

/-- C9 witness: the invariant after a concrete successful `createRule`. -/
theorem cache_field_invariant_witness :
    goodCache (createRule sampleSys sampleDevice (str "RS485_1") true true (str "d")).2.rules_ :=
  (cache_field_invariant sampleDisk sampleSys sampleDevice (str "RS485_1") [] [] [] (str "d")
    true true true).2.1 (by decide)

lemma not_prefix_of_clash {lit a : Str} (h1 : ¬ a <+: lit) (h2 : ¬ lit <+: a) (s : Str) :
    ¬ lit <+: (a ++ s) := by
  intro h
  rcases le_or_lt lit.length a.length with hl | hl
  · exact h2 (List.prefix_of_prefix_length_le h (List.prefix_append a s) hl)
  · exact h1 (List.prefix_of_prefix_length_le (List.prefix_append a s) h (Nat.le_of_lt hl))

lemma skipBlock {α : Type} (F : Str → α) (lit : Str)
    (hF : ∀ c cs, ¬ lit <+: (c :: cs) → F (c :: cs) = F cs) :
    ∀ (pre s : Str), (∀ i, i < pre.length → ¬ lit <+: (pre.drop i ++ s)) →
      F (pre ++ s) = F s := by
  intro pre
  induction pre with
  | nil => intro s _; rfl
  | cons c p ih =>
      intro s h
      have h0 := h 0 (by simp)
      simp only [List.drop_zero] at h0
      rw [List.cons_append, hF c (p ++ s) h0]
      exact ih s (fun i hi => by
        have := h (i+1) (by simpa using Nat.succ_lt_succ hi)
        simpa using this)

lemma skipClash {α : Type} (F : Str → α) (lit : Str)
    (hF : ∀ c cs, ¬ lit <+: (c :: cs) → F (c :: cs) = F cs)
    (pre s : Str)
    (h : ∀ i, i < pre.length → ¬ (pre.drop i <+: lit) ∧ ¬ (lit <+: pre.drop i)) :
    F (pre ++ s) = F s :=
  skipBlock F lit hF pre s (fun i hi => not_prefix_of_clash (h i hi).1 (h i hi).2 s)

lemma skipCharAbsent {α : Type} (F : Str → α) (lit : Str)
    (hF : ∀ c cs, ¬ lit <+: (c :: cs) → F (c :: cs) = F cs)
    (j : Nat) (ch : Char) (hch : lit[j]? = some ch) (b rest : Str)
    (hb : ch ∉ b) (hrest : ch ∉ rest.take j) :
    F (b ++ rest) = F rest := by
  apply skipBlock F lit hF
  intro i hi hpre
  obtain ⟨t, ht⟩ := hpre
  have hj : j < lit.length := by
    by_contra hge
    rw [List.getElem?_eq_none (Nat.le_of_not_lt hge)] at hch
    cases hch
  have hidx : (b.drop i ++ rest)[j]? = some ch := by
    rw [← ht, List.getElem?_append_left hj, hch]
  by_cases hj2 : j < (b.drop i).length
  · rw [List.getElem?_append_left hj2] at hidx
    exact hb (List.drop_subset i b (List.getElem?_mem hidx))
  · have hlen : 0 < (b.drop i).length := by
      rw [List.length_drop]
      omega
    rw [List.getElem?_append_right (Nat.le_of_not_lt hj2)] at hidx
    have hlt : j - (b.drop i).length < j := by
      rw [List.length_drop]
      rw [List.length_drop] at hj2
      omega
    have hmem : (rest.take j)[j - (List.drop i b).length]? = some ch := by
      rw [List.getElem?_take, if_pos hlt]
      exact hidx
    exact hrest (List.getElem?_mem hmem)

lemma not_mem_take_append (ch : Char) (j : Nat) (a b : Str)
    (ha : ch ∉ a.take j) (hb : ch ∉ b.take (j - a.length)) : ch ∉ (a ++ b).take j := by
  rw [List.take_append_eq_append_take]
  intro h
  rcases List.mem_append.mp h with h | h
  · exact ha h
  · exact hb h


lemma scanFor_step (lit : Str) (cap : Char → Bool) :
    ∀ c cs, ¬ lit <+: (c :: cs) → scanFor lit cap (c :: cs) = scanFor lit cap cs := by
  intro c cs h
  rw [scanFor, if_neg]
  simp only [List.isPrefixOf_iff_prefix]
  exact h

lemma containsSub_step (pat : Str) :
    ∀ c cs, ¬ pat <+: (c :: cs) → containsSub (c :: cs) pat = containsSub cs pat := by
  intro c cs h
  rw [containsSub]
  have : pat.isPrefixOf (c :: cs) = false := by
    rw [← Bool.not_eq_true, List.isPrefixOf_iff_prefix]
    exact h
  rw [this, Bool.false_or]

lemma takeWhile_append_all (p : Char → Bool) (l l' : Str) (h : ∀ c ∈ l, p c = true) :
    (l ++ l').takeWhile p = l ++ l'.takeWhile p := by
  induction l with
  | nil => simp
  | cons c cs ih =>
      have hc := h c (by simp)
      simp [List.takeWhile_cons, hc, ih (fun x hx => h x (by simp [hx]))]

lemma scanCap_run (cap : Char → Bool) (run tail' : Str) (hrun : ∀ c ∈ run, cap c = true)
    (hne : run ≠ []) (hq : cap '"' = false) :
    scanCap cap (run ++ '"' :: tail') = some run := by
  unfold scanCap
  dsimp only
  rw [takeWhile_append_all cap run ('"' :: tail') hrun, List.takeWhile_cons, hq]
  simp only [Bool.false_eq_true, if_false, List.append_nil]
  rw [if_neg (by simpa [List.isEmpty_iff] using hne), List.drop_left]
  rfl

lemma scanCap_quote (cap : Char → Bool) (tail' : Str) (hq : cap '"' = false) :
    scanCap cap ('"' :: tail') = none := by
  unfold scanCap
  simp [List.takeWhile_cons, hq]

lemma scanFor_found (lit : Str) (hne : lit ≠ []) (cap : Char → Bool) (run tail' : Str)
    (hrun : ∀ c ∈ run, cap c = true) (hrne : run ≠ []) (hq : cap '"' = false) :
    scanFor lit cap (lit ++ (run ++ '"' :: tail')) = some run := by
  cases lit with
  | nil => exact absurd rfl hne
  | cons l0 ls =>
      rw [List.cons_append, scanFor, if_pos]
      · rw [← List.cons_append, List.drop_left]
        rw [scanCap_run cap run tail' hrun hrne hq]
      · rw [List.isPrefixOf_iff_prefix, ← List.cons_append]
        exact List.prefix_append _ _
      -- note: goal order of if_pos side goals


lemma scanFor_found_failcap (lit : Str) (hne : lit ≠ []) (cap : Char → Bool) (rest : Str)
    (hfail : scanCap cap rest = none) :
    scanFor lit cap (lit ++ rest) = scanFor lit cap (lit.tail ++ rest) := by
  cases lit with
  | nil => exact absurd rfl hne
  | cons l0 ls =>
      rw [List.cons_append, scanFor, if_pos]
      · rw [← List.cons_append, List.drop_left, hfail]
        rfl
      · rw [List.isPrefixOf_iff_prefix, ← List.cons_append]
        exact List.prefix_append _ _



lemma getLinesAux_chunk (a : Str) (ha : '\n' ∉ a) :
    ∀ (s acc : Str), getLinesAux (a ++ s) acc = getLinesAux s (acc ++ a) := by
  induction a with
  | nil => intro s acc; simp
  | cons c cs ih =>
      intro s acc
      have hc : ¬ (c = '\n') := fun h => ha (h ▸ List.mem_cons_self c cs)
      rw [List.cons_append, getLinesAux, if_neg hc]
      rw [ih (fun h => ha (List.mem_cons_of_mem c h)) s (acc ++ [c])]
      rw [List.append_assoc]
      rfl

lemma getLinesAux_newline (s acc : Str) : getLinesAux ('\n' :: s) acc = acc :: getLinesAux s [] := by
  rw [getLinesAux, if_pos rfl]

lemma getLines_joinedLines (ls : List Str) (h : ∀ l ∈ ls, '\n' ∉ l) :
    getLines (joinedLines ls) = ls := by
  induction ls with
  | nil => rfl
  | cons l ls ih =>
      unfold getLines at *
      rw [joinedLines, getLinesAux_chunk l (h l (by simp)) _ [], getLinesAux_newline]
      rw [ih (fun x hx => h x (by simp [hx]))]
      simp





lemma render_joined (d : DeviceInfo) (n ts : Str) :
    generateRuleContent d n ts = joinedLines (renderLines d n ts) := by
  have e1 : str "# EasyTTY auto-generated rule\n" =
      str "# EasyTTY auto-generated rule" ++ '\n' :: [] := by decide
  have e2 : str "\n" = '\n' :: ([] : Str) := by decide
  have e3 : str ")\n" = str ")" ++ '\n' :: [] := by decide
  have e4 : str "\", MODE=\"0666\"\n" = str "\", MODE=\"0666\"" ++ '\n' :: [] := by decide
  unfold generateRuleContent renderLines headerLines ruleLineOf
  by_cases hs : d.serial.isEmpty <;>
    simp [hs, joinedLines, e1, e2, e3, e4, List.append_assoc]

lemma scanSkip (lit : Str) (cap : Char → Bool) (pre : Str)
    (h : ∀ i, i < pre.length → ¬ (pre.drop i <+: lit) ∧ ¬ (lit <+: pre.drop i)) (s : Str) :
    scanFor lit cap (pre ++ s) = scanFor lit cap s :=
  skipClash _ lit (scanFor_step lit cap) pre s h

lemma scanSkipChar (lit : Str) (cap : Char → Bool) (j : Nat) (ch : Char)
    (hch : lit[j]? = some ch) (b : Str) (hb : ch ∉ b) (rest : Str) (hrest : ch ∉ rest.take j) :
    scanFor lit cap (b ++ rest) = scanFor lit cap rest :=
  skipCharAbsent _ lit (scanFor_step lit cap) j ch hch b rest hb hrest

lemma hexChar_props (c : Char) (h : isHexChar c = true) :
    c ≠ '\x7b' ∧ c ≠ '+' ∧ c ≠ '\n' ∧ c ≠ '"' := by
  refine ⟨?_, ?_, ?_, ?_⟩ <;> rintro rfl <;> revert h <;> decide

lemma scan_vendor_ruleLine (d : DeviceInfo) (n : Str)
    (hv : d.vendorId ≠ []) (hvh : ∀ c ∈ d.vendorId, isHexChar c = true) :
    scanFor vendorPat isHexChar (ruleLineOf d n) = some d.vendorId := by
  unfold ruleLineOf
  have eA : str "SUBSYSTEM==\"tty\", ATTRS\x7bidVendor\x7d==\"" =
      str "SUBSYSTEM==\"tty\", " ++ vendorPat := by decide
  have eB : str "\", ATTRS\x7bidProduct\x7d==\"" =
      '"' :: str ", ATTRS\x7bidProduct\x7d==\"" := by decide
  rw [eA, eB]
  simp only [List.append_assoc, List.cons_append]
  rw [scanSkip vendorPat isHexChar (str "SUBSYSTEM==\"tty\", ") (by decide)]
  exact scanFor_found vendorPat (by decide) isHexChar d.vendorId _ hvh hv (by decide)


lemma nameChar_props (c : Char)
    (h : isAlphaChar c = true ∨ isDigitChar c = true ∨ c = '_' ∨ c = '-') :
    c ≠ '\x7b' ∧ c ≠ '+' ∧ c ≠ '\n' ∧ c ≠ '"' := by
  refine ⟨?_, ?_, ?_, ?_⟩ <;> rintro rfl <;> revert h <;> decide

lemma validName_chars (n : Str) (h : isValidSymlinkName n = true) :
    ∀ c ∈ n, c ≠ '\x7b' ∧ c ≠ '+' ∧ c ≠ '\n' ∧ c ≠ '"' := by
  have hg := (isValidSymlinkName_iff n).mp h
  cases n with
  | nil => intro c hc; cases hc
  | cons a rest =>
      obtain ⟨h1, _, h3⟩ := hg
      intro c hc
      rcases List.mem_cons.mp hc with rfl | hc
      · exact nameChar_props c (Or.inl h1)
      · exact nameChar_props c (h3 c hc)

lemma validName_ne_nil (n : Str) (h : isValidSymlinkName n = true) : n ≠ [] := by
  intro he
  subst he
  exact absurd ((isValidSymlinkName_iff []).mp h) id

lemma scan_product_ruleLine (d : DeviceInfo) (n : Str)
    (hvh : ∀ c ∈ d.vendorId, isHexChar c = true)
    (hph : ∀ c ∈ d.productId, isHexChar c = true)
    (hs : ∀ c ∈ d.serial, c ≠ '"' ∧ c ≠ '\x7b' ∧ c ≠ '+')
    (hn : isValidSymlinkName n = true) :
    scanFor productPat isHexChar (ruleLineOf d n) =
      if d.productId.isEmpty then none else some d.productId := by
  have hbv : '\x7b' ∉ d.vendorId := fun h => ((hexChar_props _ (hvh _ h)).1 rfl)
  have hbn : '\x7b' ∉ n := fun h => ((validName_chars n hn _ h).1 rfl)
  have hbs : '\x7b' ∉ d.serial := fun h => ((hs _ h).2.1 rfl)
  unfold ruleLineOf
  simp only [List.append_assoc]
  rw [scanSkip productPat isHexChar (str "SUBSYSTEM==\"tty\", ATTRS\x7bidVendor\x7d==\"") (by decide)]
  rw [scanSkipChar productPat isHexChar 5 '\x7b' (by decide) d.vendorId hbv _
    (by rw [List.take_append_of_le_length (by decide)]; decide)]
  rw [show (str "\", ATTRS\x7bidProduct\x7d==\"" : Str) = str "\", " ++ productPat from by decide]
  rw [List.append_assoc]
  rw [scanSkip productPat isHexChar (str "\", ") (by decide)]
  by_cases hp : d.productId = []
  · rw [hp]
    simp only [List.nil_append]
    rw [show (str "\"" : Str) = ['"'] from by decide, List.singleton_append]
    rw [scanFor_found_failcap productPat (by decide) isHexChar _ (scanCap_quote _ _ (by decide))]
    rw [show (productPat.tail : Str) = str "TTRS\x7bidProduct\x7d==\"" from by decide]
    rw [scanSkip productPat isHexChar (str "TTRS\x7bidProduct\x7d==\"") (by decide)]
    by_cases hser : d.serial.isEmpty
    · simp only [hser, Bool.not_true, Bool.false_eq_true, if_false, List.nil_append]
      rw [← List.cons_append, scanSkip productPat isHexChar ('"' :: str ", SYMLINK+=\"") (by decide)]
      rw [scanSkipChar productPat isHexChar 5 '\x7b' (by decide) n hbn _ (by decide)]
      decide
    · simp only [hser, Bool.not_false, if_true, List.append_assoc]
      rw [← List.cons_append, scanSkip productPat isHexChar ('"' :: str ", ATTRS\x7bserial\x7d==\"") (by decide)]
      rw [scanSkipChar productPat isHexChar 5 '\x7b' (by decide) d.serial hbs _
        (by
          apply not_mem_take_append _ _ _ _ (by decide)
          apply not_mem_take_append _ _ _ _ (by decide)
          show '\x7b' ∉ List.take 0 _
          simp)]
      rw [scanSkip productPat isHexChar ['"'] (by decide)]
      rw [scanSkip productPat isHexChar (str ", SYMLINK+=\"") (by decide)]
      rw [scanSkipChar productPat isHexChar 5 '\x7b' (by decide) n hbn _ (by decide)]
      decide
  · have hpe : d.productId.isEmpty = false := by simpa [List.isEmpty_iff] using hp
    rw [hpe]
    simp only [Bool.false_eq_true, if_false]
    rw [show (str "\"" : Str) = ['"'] from by decide, List.singleton_append]
    exact scanFor_found productPat (by decide) isHexChar d.productId _ hph hp (by decide)


lemma scan_serial_ruleLine (d : DeviceInfo) (n : Str)
    (hvh : ∀ c ∈ d.vendorId, isHexChar c = true)
    (hph : ∀ c ∈ d.productId, isHexChar c = true)
    (hs : ∀ c ∈ d.serial, c ≠ '"' ∧ c ≠ '\x7b' ∧ c ≠ '+')
    (hn : isValidSymlinkName n = true) :
    scanFor serialPat (fun c => c ≠ '"') (ruleLineOf d n) =
      if d.serial.isEmpty then none else some d.serial := by
  have hbv : '\x7b' ∉ d.vendorId := fun h => ((hexChar_props _ (hvh _ h)).1 rfl)
  have hbp : '\x7b' ∉ d.productId := fun h => ((hexChar_props _ (hph _ h)).1 rfl)
  have hbn : '\x7b' ∉ n := fun h => ((validName_chars n hn _ h).1 rfl)
  unfold ruleLineOf
  simp only [List.append_assoc]
  by_cases hser : d.serial.isEmpty
  · simp only [hser, Bool.not_true, Bool.false_eq_true, if_false, if_true, List.nil_append]
    rw [scanSkip serialPat (fun c => c ≠ '"') (str "SUBSYSTEM==\"tty\", ATTRS\x7bidVendor\x7d==\"") (by decide)]
    rw [scanSkipChar serialPat (fun c => c ≠ '"') 5 '\x7b' (by decide) d.vendorId hbv _
      (by rw [List.take_append_of_le_length (by decide)]; decide)]
    rw [scanSkip serialPat (fun c => c ≠ '"') (str "\", ATTRS\x7bidProduct\x7d==\"") (by decide)]
    rw [scanSkipChar serialPat (fun c => c ≠ '"') 5 '\x7b' (by decide) d.productId hbp _
      (by
        apply not_mem_take_append _ _ _ _ (by decide)
        apply not_mem_take_append _ _ _ _ (by decide)
        show '\x7b' ∉ List.take 0 _
        simp)]
    rw [scanSkip serialPat (fun c => c ≠ '"') (str "\"") (by decide)]
    rw [scanSkip serialPat (fun c => c ≠ '"') (str ", SYMLINK+=\"") (by decide)]
    rw [scanSkipChar serialPat (fun c => c ≠ '"') 5 '\x7b' (by decide) n hbn _ (by decide)]
    decide
  · simp only [hser, Bool.not_false, if_true, Bool.false_eq_true, if_false, List.append_assoc]
    rw [scanSkip serialPat (fun c => c ≠ '"') (str "SUBSYSTEM==\"tty\", ATTRS\x7bidVendor\x7d==\"") (by decide)]
    rw [scanSkipChar serialPat (fun c => c ≠ '"') 5 '\x7b' (by decide) d.vendorId hbv _
      (by rw [List.take_append_of_le_length (by decide)]; decide)]
    rw [scanSkip serialPat (fun c => c ≠ '"') (str "\", ATTRS\x7bidProduct\x7d==\"") (by decide)]
    rw [scanSkipChar serialPat (fun c => c ≠ '"') 5 '\x7b' (by decide) d.productId hbp _
      (by
        apply not_mem_take_append _ _ _ _ (by decide)
        apply not_mem_take_append _ _ _ _ (by decide)
        show '\x7b' ∉ List.take 0 _
        simp)]
    rw [scanSkip serialPat (fun c => c ≠ '"') (str "\"") (by decide)]
    rw [show (str ", ATTRS\x7bserial\x7d==\"" : Str) = str ", " ++ serialPat from by decide,
      List.append_assoc]
    rw [scanSkip serialPat (fun c => c ≠ '"') (str ", ") (by decide)]
    rw [show (str "\"" : Str) = ['"'] from by decide, List.singleton_append]
    rw [scanFor_found serialPat (by decide) (fun c => c ≠ '"') d.serial _
      (fun c hc => by simp [(hs c hc).1]) (by simpa [List.isEmpty_iff] using hser) (by decide)]

lemma scan_symlink_ruleLine (d : DeviceInfo) (n : Str)
    (hvh : ∀ c ∈ d.vendorId, isHexChar c = true)
    (hph : ∀ c ∈ d.productId, isHexChar c = true)
    (hs : ∀ c ∈ d.serial, c ≠ '"' ∧ c ≠ '\x7b' ∧ c ≠ '+')
    (hn : isValidSymlinkName n = true) :
    scanFor symlinkPat (fun c => c ≠ '"') (ruleLineOf d n) = some n := by
  have hpv : '+' ∉ d.vendorId := fun h => ((hexChar_props _ (hvh _ h)).2.1 rfl)
  have hpp : '+' ∉ d.productId := fun h => ((hexChar_props _ (hph _ h)).2.1 rfl)
  have hps : '+' ∉ d.serial := fun h => ((hs _ h).2.2 rfl)
  have hrunq : ∀ c ∈ n, (fun c => decide (c ≠ '"')) c = true :=
    fun c hc => by simp [(validName_chars n hn c hc).2.2.2]
  unfold ruleLineOf
  simp only [List.append_assoc]
  by_cases hser : d.serial.isEmpty
  · simp only [hser, Bool.not_true, Bool.false_eq_true, if_false, List.nil_append]
    rw [scanSkip symlinkPat (fun c => c ≠ '"') (str "SUBSYSTEM==\"tty\", ATTRS\x7bidVendor\x7d==\"") (by decide)]
    rw [scanSkipChar symlinkPat (fun c => c ≠ '"') 7 '+' (by decide) d.vendorId hpv _
      (by rw [List.take_append_of_le_length (by decide)]; decide)]
    rw [scanSkip symlinkPat (fun c => c ≠ '"') (str "\", ATTRS\x7bidProduct\x7d==\"") (by decide)]
    rw [scanSkipChar symlinkPat (fun c => c ≠ '"') 7 '+' (by decide) d.productId hpp _
      (by
        apply not_mem_take_append _ _ _ _ (by decide)
        apply not_mem_take_append _ _ _ _ (by decide)
        show '+' ∉ List.take 0 _
        simp)]
    rw [scanSkip symlinkPat (fun c => c ≠ '"') (str "\"") (by decide)]
    rw [show (str ", SYMLINK+=\"" : Str) = str ", " ++ symlinkPat from by decide,
      List.append_assoc]
    rw [scanSkip symlinkPat (fun c => c ≠ '"') (str ", ") (by decide)]
    rw [show (str "\", MODE=\"0666\"" : Str) = '"' :: str ", MODE=\"0666\"" from by decide]
    rw [scanFor_found symlinkPat (by decide) (fun c => c ≠ '"') n _
      hrunq (validName_ne_nil n hn) (by decide)]
  · simp only [hser, Bool.not_false, if_true, List.append_assoc]
    rw [scanSkip symlinkPat (fun c => c ≠ '"') (str "SUBSYSTEM==\"tty\", ATTRS\x7bidVendor\x7d==\"") (by decide)]
    rw [scanSkipChar symlinkPat (fun c => c ≠ '"') 7 '+' (by decide) d.vendorId hpv _
      (by rw [List.take_append_of_le_length (by decide)]; decide)]
    rw [scanSkip symlinkPat (fun c => c ≠ '"') (str "\", ATTRS\x7bidProduct\x7d==\"") (by decide)]
    rw [scanSkipChar symlinkPat (fun c => c ≠ '"') 7 '+' (by decide) d.productId hpp _
      (by
        apply not_mem_take_append _ _ _ _ (by decide)
        apply not_mem_take_append _ _ _ _ (by decide)
        show '+' ∉ List.take 0 _
        simp)]
    rw [scanSkip symlinkPat (fun c => c ≠ '"') (str "\"") (by decide)]
    rw [scanSkip symlinkPat (fun c => c ≠ '"') (str ", ATTRS\x7bserial\x7d==\"") (by decide)]
    rw [scanSkipChar symlinkPat (fun c => c ≠ '"') 7 '+' (by decide) d.serial hps _
      (by
        apply not_mem_take_append _ _ _ _ (by decide)
        apply not_mem_take_append _ _ _ _ (by decide)
        show '+' ∉ List.take 0 _
        simp)]
    rw [scanSkip symlinkPat (fun c => c ≠ '"') (str "\"") (by decide)]
    rw [show (str ", SYMLINK+=\"" : Str) = str ", " ++ symlinkPat from by decide,
      List.append_assoc]
    rw [scanSkip symlinkPat (fun c => c ≠ '"') (str ", ") (by decide)]
    rw [show (str "\", MODE=\"0666\"" : Str) = '"' :: str ", MODE=\"0666\"" from by decide]
    rw [scanFor_found symlinkPat (by decide) (fun c => c ≠ '"') n _
      hrunq (validName_ne_nil n hn) (by decide)]


lemma processLine_skip (r : UdevRule) (line : Str) (h : line = [] ∨ line.head? = some '#') :
    ∃ nm, processLine r line = { r with name := nm } := by
  rcases h with rfl | h
  · exact ⟨r.name, rfl⟩
  · cases line with
    | nil => cases h
    | cons c t =>
        have hc : c = '#' := by simpa using h
        subst hc
        unfold processLine
        cases hdev : containsSub ('#' :: t) (str "# Device:")
        · exact ⟨r.name, by simp⟩
        · exact ⟨trim (substrAfterColon ('#' :: t)), by simp⟩

lemma foldl_processLine_skips (lines : List Str) (h : ∀ l ∈ lines, l = [] ∨ l.head? = some '#')
    (r : UdevRule) : ∃ nm, lines.foldl processLine r = { r with name := nm } := by
  induction lines generalizing r with
  | nil => exact ⟨r.name, rfl⟩
  | cons l ls ih =>
      obtain ⟨nm1, h1⟩ := processLine_skip r l (h l (by simp))
      obtain ⟨nm2, h2⟩ := ih (fun x hx => h x (by simp [hx])) (processLine r l)
      rw [List.foldl_cons, h2, h1]
      exact ⟨nm2, rfl⟩

lemma head_of_lit_append (a : Str) (c : Char) (lit rest : Str) (h : lit = c :: rest) :
    (lit ++ a) = [] ∨ (lit ++ a).head? = some c :=
  Or.inr (by rw [h, List.cons_append]; rfl)

lemma headerLines_comment (d : DeviceInfo) (ts : Str) :
    ∀ l ∈ headerLines d ts, l = [] ∨ l.head? = some '#' := by
  intro l hl
  unfold headerLines at hl
  by_cases hser : d.serial.isEmpty <;>
    simp only [hser, Bool.not_true, Bool.not_false, Bool.false_eq_true, if_false, if_true,
      List.nil_append, List.append_assoc, List.cons_append, List.mem_cons,
      List.mem_singleton, List.not_mem_nil, or_false, List.mem_append] at hl
  · rcases hl with rfl | rfl | rfl | rfl | rfl | rfl | rfl
    · exact Or.inr (by decide)
    · exact head_of_lit_append _ '#' _ (str " Device: ") (by decide)
    · exact head_of_lit_append _ '#' _ (str " Vendor: ") (by decide)
    · exact head_of_lit_append _ '#' _ (str " Product: ") (by decide)
    · exact head_of_lit_append _ '#' _ (str " Original: ") (by decide)
    · exact head_of_lit_append _ '#' _ (str " Created: ") (by decide)
    · exact Or.inl rfl
  · rcases hl with rfl | rfl | rfl | rfl | rfl | rfl | rfl | rfl
    · exact Or.inr (by decide)
    · exact head_of_lit_append _ '#' _ (str " Device: ") (by decide)
    · exact head_of_lit_append _ '#' _ (str " Vendor: ") (by decide)
    · exact head_of_lit_append _ '#' _ (str " Product: ") (by decide)
    · exact head_of_lit_append _ '#' _ (str " Serial: ") (by decide)
    · exact head_of_lit_append _ '#' _ (str " Original: ") (by decide)
    · exact head_of_lit_append _ '#' _ (str " Created: ") (by decide)
    · exact Or.inl rfl


lemma ruleLineOf_isEmpty (d : DeviceInfo) (n : Str) : (ruleLineOf d n).isEmpty = false := by
  unfold ruleLineOf
  rw [(by decide :
    (str "SUBSYSTEM==\"tty\", ATTRS\x7bidVendor\x7d==\"" : Str) =
      'S' :: str "UBSYSTEM==\"tty\", ATTRS\x7bidVendor\x7d==\"")]
  simp only [List.cons_append, List.append_assoc]
  rfl

lemma ruleLineOf_headQ (d : DeviceInfo) (n : Str) : (ruleLineOf d n).head? = some 'S' := by
  unfold ruleLineOf
  rw [(by decide :
    (str "SUBSYSTEM==\"tty\", ATTRS\x7bidVendor\x7d==\"" : Str) =
      'S' :: str "UBSYSTEM==\"tty\", ATTRS\x7bidVendor\x7d==\"")]
  simp only [List.cons_append, List.append_assoc]
  rfl

lemma processLine_ruleLine (r : UdevRule) (d : DeviceInfo) (n : Str)
    (hrp : r.productId = []) (hrs : r.serial = [])
    (hv : d.vendorId ≠ [])
    (hvh : ∀ c ∈ d.vendorId, isHexChar c = true)
    (hph : ∀ c ∈ d.productId, isHexChar c = true)
    (hs : ∀ c ∈ d.serial, c ≠ '"' ∧ c ≠ '\x7b' ∧ c ≠ '+')
    (hn : isValidSymlinkName n = true) :
    ∃ nm, processLine r (ruleLineOf d n) =
      { r with name := nm, vendorId := d.vendorId, productId := d.productId,
               serial := d.serial, symlink := n } := by
  have hempty : (ruleLineOf d n).isEmpty = false := ruleLineOf_isEmpty d n
  have hhash : decide ((ruleLineOf d n).head? = some '#') = false := by
    rw [ruleLineOf_headQ]
    decide
  unfold processLine
  rw [scan_vendor_ruleLine d n hv hvh, scan_product_ruleLine d n hvh hph hs hn,
    scan_serial_ruleLine d n hvh hph hs hn, scan_symlink_ruleLine d n hvh hph hs hn]
  rw [hempty, hhash]
  simp only [Bool.false_or, Bool.false_eq_true, if_false]
  by_cases hp : d.productId.isEmpty <;> by_cases hsr : d.serial.isEmpty <;>
    simp only [hp, hsr, if_true, Bool.false_eq_true, if_false] <;>
    [skip; skip; skip; skip] <;>
    cases hdev : containsSub (ruleLineOf d n) (str "# Device:") <;>
      simp only [Bool.false_eq_true, if_false, if_true]
  all_goals exact ⟨_, by
    try rw [hrp, (by simpa [List.isEmpty_iff] using hp : d.productId = [])]
    try rw [hrs, (by simpa [List.isEmpty_iff] using hsr : d.serial = [])]
    try rfl⟩


lemma not_mem_append_of (c : Char) (a b : Str) (ha : c ∉ a) (hb : c ∉ b) : c ∉ a ++ b :=
  fun h => (List.mem_append.mp h).elim ha hb

lemma renderLines_no_newline (d : DeviceInfo) (n ts : Str)
    (hvh : ∀ c ∈ d.vendorId, isHexChar c = true)
    (hph : ∀ c ∈ d.productId, isHexChar c = true)
    (hsn : ∀ c ∈ d.serial, c ≠ '\n')
    (hn : isValidSymlinkName n = true)
    (h1 : '\n' ∉ d.manufacturer) (h2 : '\n' ∉ d.product) (h3 : '\n' ∉ d.devNode)
    (h4 : '\n' ∉ d.devPath) (h5 : '\n' ∉ ts) :
    ∀ l ∈ renderLines d n ts, '\n' ∉ l := by
  have hv : '\n' ∉ d.vendorId := fun h => ((hexChar_props _ (hvh _ h)).2.2.1 rfl)
  have hp : '\n' ∉ d.productId := fun h => ((hexChar_props _ (hph _ h)).2.2.1 rfl)
  have hs : '\n' ∉ d.serial := fun h => (hsn _ h) rfl
  have hnn : '\n' ∉ n := fun h => ((validName_chars n hn _ h).2.2.1 rfl)
  have hdisp : '\n' ∉ d.getDisplayName := by
    unfold DeviceInfo.getDisplayName
    split
    · exact not_mem_append_of _ _ _
        (not_mem_append_of _ _ _ (not_mem_append_of _ _ _ h2 (by decide)) h3) (by decide)
    · exact h3
  have hserb : '\n' ∉ (if !d.serial.isEmpty
      then str ", ATTRS\x7bserial\x7d==\"" ++ d.serial ++ str "\"" else []) := by
    split
    · exact not_mem_append_of _ _ _
        (not_mem_append_of _ _ _ (by decide) hs) (by decide)
    · simp
  have hrule : '\n' ∉ ruleLineOf d n := by
    unfold ruleLineOf
    exact not_mem_append_of _ _ _
      (not_mem_append_of _ _ _
        (not_mem_append_of _ _ _
          (not_mem_append_of _ _ _
            (not_mem_append_of _ _ _
              (not_mem_append_of _ _ _
                (not_mem_append_of _ _ _
                  (not_mem_append_of _ _ _ (by decide) hv)
                  (by decide))
                hp)
              (by decide))
            hserb)
          (by decide))
        hnn)
      (by decide)
  intro l hl
  unfold renderLines headerLines at hl
  by_cases hser : d.serial.isEmpty <;>
    simp only [hser, Bool.not_true, Bool.not_false, Bool.false_eq_true, if_false, if_true,
      List.nil_append, List.append_assoc, List.cons_append, List.mem_cons,
      List.mem_singleton, List.not_mem_nil, or_false, List.mem_append] at hl
  · rcases hl with rfl | rfl | rfl | rfl | rfl | rfl | rfl | rfl
    · decide
    · exact not_mem_append_of _ _ _ (by decide) hdisp
    · exact not_mem_append_of _ _ _ (by decide)
        (not_mem_append_of _ _ _ h1
          (not_mem_append_of _ _ _ (by decide) (not_mem_append_of _ _ _ hv (by decide))))
    · exact not_mem_append_of _ _ _ (by decide)
        (not_mem_append_of _ _ _ h2
          (not_mem_append_of _ _ _ (by decide) (not_mem_append_of _ _ _ hp (by decide))))
    · exact not_mem_append_of _ _ _ (by decide) h4
    · exact not_mem_append_of _ _ _ (by decide) h5
    · simp
    · exact hrule
  · rcases hl with rfl | rfl | rfl | rfl | rfl | rfl | rfl | rfl | rfl
    · decide
    · exact not_mem_append_of _ _ _ (by decide) hdisp
    · exact not_mem_append_of _ _ _ (by decide)
        (not_mem_append_of _ _ _ h1
          (not_mem_append_of _ _ _ (by decide) (not_mem_append_of _ _ _ hv (by decide))))
    · exact not_mem_append_of _ _ _ (by decide)
        (not_mem_append_of _ _ _ h2
          (not_mem_append_of _ _ _ (by decide) (not_mem_append_of _ _ _ hp (by decide))))
    · exact not_mem_append_of _ _ _ (by decide) hs
    · exact not_mem_append_of _ _ _ (by decide) h4
    · exact not_mem_append_of _ _ _ (by decide) h5
    · simp
    · exact hrule


set_option maxHeartbeats 2000000 in
/-- C3 amended: the render/parse round trip restores vendor id, product id,
serial and symlink for every device whose vendor id is nonempty hexadecimal,
whose product id is hexadecimal, and whose serial avoids the quote, newline,
brace and plus characters, with newline-free comment fields and a
grammatical symlink name. -/
theorem codec_roundTrip (filePath : Str) (d : DeviceInfo) (n ts : Str)
    (hv : d.vendorId ≠ [])
    (hvh : ∀ c ∈ d.vendorId, isHexChar c = true)
    (hph : ∀ c ∈ d.productId, isHexChar c = true)
    (hs : ∀ c ∈ d.serial, c ≠ '"' ∧ c ≠ '\n' ∧ c ≠ '\x7b' ∧ c ≠ '+')
    (hn : isValidSymlinkName n = true)
    (h1 : '\n' ∉ d.manufacturer) (h2 : '\n' ∉ d.product) (h3 : '\n' ∉ d.devNode)
    (h4 : '\n' ∉ d.devPath) (h5 : '\n' ∉ ts) :
    (parseRuleFile filePath (generateRuleContent d n ts)).map
      (fun r => (r.vendorId, r.productId, r.serial, r.symlink)) =
      some (d.vendorId, d.productId, d.serial, n) := by
  have hs' : ∀ c ∈ d.serial, c ≠ '"' ∧ c ≠ '\x7b' ∧ c ≠ '+' :=
    fun c hc => ⟨(hs c hc).1, (hs c hc).2.2.1, (hs c hc).2.2.2⟩
  have hlines : getLines (generateRuleContent d n ts) = renderLines d n ts := by
    rw [render_joined]
    exact getLines_joinedLines _ (renderLines_no_newline d n ts hvh hph
      (fun c hc => (hs c hc).2.1) hn h1 h2 h3 h4 h5)
  unfold parseRuleFile
  dsimp only
  rw [hlines]
  unfold renderLines
  rw [List.foldl_append]
  obtain ⟨nm, hnm⟩ := foldl_processLine_skips (headerLines d ts) (headerLines_comment d ts)
    { name := [], vendorId := [], productId := [], serial := [], symlink := [],
      filePath := filePath, interfaceNum := [], priority :=
        match stoiOfChars ((filenameOf filePath).take 2) with
        | some v => v
        | none => 99, isActive := true }
  rw [hnm]
  rw [List.foldl_cons, List.foldl_nil]
  obtain ⟨nm2, hpl⟩ := processLine_ruleLine
    { name := nm, vendorId := [], productId := [], serial := [], symlink := [],
      filePath := filePath, interfaceNum := [], priority :=
        match stoiOfChars ((filenameOf filePath).take 2) with
        | some v => v
        | none => 99, isActive := true } d n rfl rfl hv hvh hph hs' hn
  rw [hpl]
  have hvE : d.vendorId.isEmpty = false := by simpa [List.isEmpty_iff] using hv
  have hnE : n.isEmpty = false := by simpa [List.isEmpty_iff] using validName_ne_nil n hn
  rw [hvE, hnE]
  simp only [Bool.or_self, Bool.false_eq_true, if_false, Bool.or_false]
  by_cases hm : nm2.isEmpty <;> simp [hm]


set_option maxRecDepth 10000 in
/-- C3 counterexample: the claim promises the round trip for every valid
DeviceRecord, but a valid device whose vendor id is `zz` renders to a file
the parser rejects, because the vendor-id regex only accepts hexadecimal
digits. -/
theorem codec_roundTrip_counterexample :
    deviceNonHexVendor.isValid = true ∧
    isValidSymlinkName (str "RS485_1") = true ∧
    parseRuleFile (str "/etc/udev/rules.d/99-easytty-RS485_1.rules")
      (generateRuleContent deviceNonHexVendor (str "RS485_1") (str "Sun Oct 12")) = none := by
  decide

set_option maxRecDepth 10000 in
/-- C3 witness: the amended round trip applied to a concrete FTDI device. -/
theorem codec_roundTrip_witness :
    (parseRuleFile (str "/etc/udev/rules.d/99-easytty-RS485_1.rules")
        (generateRuleContent sampleDevice (str "RS485_1") (str "Sun Oct 12"))).map
      (fun r => (r.vendorId, r.productId, r.serial, r.symlink)) =
      some (sampleDevice.vendorId, sampleDevice.productId, sampleDevice.serial, str "RS485_1") :=
  codec_roundTrip (str "/etc/udev/rules.d/99-easytty-RS485_1.rules") sampleDevice
    (str "RS485_1") (str "Sun Oct 12") (by decide) (by decide) (by decide) (by decide)
    (by decide) (by decide) (by decide) (by decide) (by decide) (by decide)


lemma containsSkip (pat pre : Str)
    (h : ∀ i, i < pre.length → ¬ (pre.drop i <+: pat) ∧ ¬ (pat <+: pre.drop i)) (s : Str) :
    containsSub (pre ++ s) pat = containsSub s pat :=
  skipClash (fun x => containsSub x pat) pat (containsSub_step pat) pre s h

lemma containsSkipChar (pat : Str) (j : Nat) (ch : Char) (hch : pat[j]? = some ch)
    (b : Str) (hb : ch ∉ b) (rest : Str) (hrest : ch ∉ rest.take j) :
    containsSub (b ++ rest) pat = containsSub rest pat :=
  skipCharAbsent (fun x => containsSub x pat) pat (containsSub_step pat) j ch hch b rest hb hrest

lemma take_subset_take (ch : Char) (b : Str) (m j : Nat) (hm : m ≤ j) (h : ch ∈ b.take m) :
    ch ∈ b.take j := by
  have : b.take m = (b.take j).take m := by
    rw [List.take_take, Nat.min_eq_left hm]
  rw [this] at h
  exact List.take_subset _ _ h

lemma not_mem_take_append2 (ch : Char) (j : Nat) (a b : Str)
    (ha : ch ∉ a) (hb : ch ∉ b.take j) : ch ∉ (a ++ b).take j := by
  rw [List.take_append_eq_append_take]
  intro h
  rcases List.mem_append.mp h with h | h
  · exact ha (List.take_subset _ _ h)
  · exact hb (take_subset_take ch b _ j (Nat.sub_le _ _) h)

lemma containsSub_append_right (s t pat : Str) (h : containsSub t pat = true) :
    containsSub (s ++ t) pat = true := by
  induction s with
  | nil => simpa using h
  | cons c s' ih =>
      rw [List.cons_append, containsSub, ih, Bool.or_true]

lemma containsSub_append_left (s t pat : Str) (h : containsSub s pat = true) :
    containsSub (s ++ t) pat = true := by
  induction s with
  | nil =>
      cases t with
      | nil => exact h
      | cons c cs =>
          have hpe : pat = [] := by
            rw [containsSub] at h
            simpa [List.isEmpty_iff] using h
          subst hpe
          rw [List.nil_append, containsSub]
          simp [List.isPrefixOf]
  | cons c s' ih =>
      rw [List.cons_append, containsSub]
      rw [containsSub] at h
      rcases Bool.or_eq_true_iff.mp h with h | h
      · have hpre := List.isPrefixOf_iff_prefix.mp h
        have : pat <+: (c :: (s' ++ t)) := by
          rw [← List.cons_append]
          exact hpre.trans (List.prefix_append _ _)
        rw [List.isPrefixOf_iff_prefix.mpr this]
        rfl
      · rw [ih h, Bool.or_true]

lemma containsSub_pat_append (pat t : Str) : containsSub (pat ++ t) pat = true := by
  cases hp : pat with
  | nil =>
      cases t with
      | nil => rfl
      | cons c cs => rw [List.nil_append, containsSub]; simp [List.isPrefixOf]
  | cons c cs =>
      subst hp
      rw [List.cons_append, containsSub]
      have hpre : (c :: cs : Str) <+: c :: (cs ++ t) := by
        rw [← List.cons_append]
        exact List.prefix_append _ _
      rw [List.isPrefixOf_iff_prefix.mpr hpre]
      rfl


lemma failure_ne_of_message (m1 m2 : Str) (h : m1 ≠ m2) :
    OperationResult.Failure m1 ≠ OperationResult.Failure m2 := by
  intro he
  unfold OperationResult.Failure at he
  injection he with _ h2
  exact h h2

lemma cons_append_append (c : Char) (l x y : Str) :
    ((c :: l : Str) ++ x) ++ y = c :: ((l ++ x) ++ y) := by
  simp [List.cons_append]

lemma ne_invalidDevice_of_head (m : Str) (c : Char) (t : Str) (hm : m = c :: t)
    (hc : c ≠ 'I') : m ≠ str "Invalid device information" := by
  intro h
  rw [hm, (by decide : (str "Invalid device information" : Str) =
    'I' :: str "nvalid device information")] at h
  injection h with h1 _
  exact hc h1

lemma createRule_not_invalid_device (sys : MgrSys) (d : DeviceInfo) (n : Str)
    (isRoot writeOk : Bool) (dateOut : Str) (hval : d.isValid = true) :
    (createRule sys d n isRoot writeOk dateOut).1 ≠
      OperationResult.Failure (str "Invalid device information") := by
  unfold createRule
  split
  · exact failure_ne_of_message _ _ (by decide)
  split
  · rename_i h
    rw [hval] at h
    simp at h
  split
  · exact failure_ne_of_message _ _ (ne_invalidDevice_of_head _ 'S'
      ((str "ymlink name '" ++ n) ++ str "' is already in use")
      (by rw [(by decide : (str "Symlink name '" : Str) = 'S' :: str "ymlink name '"),
        cons_append_append]) (by decide))
  split
  · rename_i r _
    exact failure_ne_of_message _ _ (ne_invalidDevice_of_head _ 'A'
      ((str " rule for this device already exists as '" ++ r.symlink) ++ str "'")
      (by rw [(by decide : (str "A rule for this device already exists as '" : Str) =
        'A' :: str " rule for this device already exists as '"), cons_append_append])
      (by decide))
  · unfold writeRuleFile
    by_cases hr : isRoot <;> by_cases hw : writeOk <;> simp only [hr, hw, if_true, if_false] <;>
      first
        | (intro h
           unfold OperationResult.Success at h
           injection h with h1 _
           exact absurd h1 (by decide))
        | exact failure_ne_of_message _ _ (ne_invalidDevice_of_head _ 'F'
            (str "ailed to create rule file: " ++ (str "/etc/udev/rules.d" ++ str "/" ++ generateRuleFileName n))
            (by rw [(by decide : (str "Failed to create rule file: " : Str) =
              'F' :: str "ailed to create rule file: "), List.cons_append]) (by decide))
        | exact failure_ne_of_message _ _ (by decide)


set_option maxHeartbeats 1000000 in
/-- C10: a device with empty product id and serial but nonempty device path
and vendor id passes the validity check — `createRule` never returns the
invalid-device failure for it — and its rendered rule text contains the
literal `ATTRS\x7bidProduct\x7d==""` and no `ATTRS\x7bserial\x7d` attribute
(the device's text fields are assumed free of brace characters so that no
rendered value can spell out an attribute). -/
theorem emptyProduct_render_spec (sys : MgrSys) (d : DeviceInfo) (n ts : Str)
    (isRoot writeOk : Bool)
    (hp : d.productId = []) (hsr : d.serial = [])
    (hdp : d.devPath ≠ []) (hv : d.vendorId ≠ [])
    (hb1 : '\x7b' ∉ d.vendorId) (hb2 : '\x7b' ∉ d.manufacturer) (hb3 : '\x7b' ∉ d.product)
    (hb4 : '\x7b' ∉ d.devNode) (hb5 : '\x7b' ∉ d.devPath) (hb6 : '\x7b' ∉ ts)
    (hbn : '\x7b' ∉ n) :
    d.isValid = true ∧
    (createRule sys d n isRoot writeOk ts).1 ≠
      OperationResult.Failure (str "Invalid device information") ∧
    containsSub (generateRuleContent d n ts) (str "ATTRS\x7bidProduct\x7d==\"\"") = true ∧
    containsSub (generateRuleContent d n ts) (str "ATTRS\x7bserial\x7d") = false := by
  have h1e : d.devPath.isEmpty = false := by simpa [List.isEmpty_iff] using hdp
  have h2e : d.vendorId.isEmpty = false := by simpa [List.isEmpty_iff] using hv
  have hval : d.isValid = true := by
    unfold DeviceInfo.isValid
    rw [h1e, h2e]
    rfl
  have hbdisp : '\x7b' ∉ d.getDisplayName := by
    unfold DeviceInfo.getDisplayName
    split
    · exact not_mem_append_of _ _ _
        (not_mem_append_of _ _ _ (not_mem_append_of _ _ _ hb3 (by decide)) hb4) (by decide)
    · exact hb4
  refine ⟨hval, createRule_not_invalid_device sys d n isRoot writeOk ts hval, ?_, ?_⟩
  · unfold generateRuleContent
    rw [hp, hsr]
    simp only [List.isEmpty_nil, Bool.not_true, Bool.false_eq_true, if_false,
      List.append_nil, List.nil_append, List.append_assoc]
    iterate 22 apply containsSub_append_right
    rw [(by decide : (str "\", ATTRS\x7bidProduct\x7d==\"" : Str) = str "\", " ++ productPat),
      List.append_assoc]
    apply containsSub_append_right
    rw [← List.append_assoc,
      (by decide : (productPat ++ str "\"" : Str) = str "ATTRS\x7bidProduct\x7d==\"\"")]
    exact containsSub_pat_append _ _
  · unfold generateRuleContent
    rw [hp, hsr]
    simp only [List.isEmpty_nil, Bool.not_true, Bool.false_eq_true, if_false,
      List.append_nil, List.nil_append, List.append_assoc]
    rw [containsSkip (str "ATTRS\x7bserial\x7d") (str "# EasyTTY auto-generated rule\n") (by decide)]
    rw [containsSkip (str "ATTRS\x7bserial\x7d") (str "# Device: ") (by decide)]
    rw [containsSkipChar (str "ATTRS\x7bserial\x7d") 5 '\x7b' (by decide) d.getDisplayName hbdisp _
      (by
        apply not_mem_take_append2 _ _ _ _ (by decide)
        rw [List.take_append_of_le_length (by decide)]
        decide)]
    rw [containsSkip (str "ATTRS\x7bserial\x7d") (str "\n") (by decide)]
    rw [containsSkip (str "ATTRS\x7bserial\x7d") (str "# Vendor: ") (by decide)]
    rw [containsSkipChar (str "ATTRS\x7bserial\x7d") 5 '\x7b' (by decide) d.manufacturer hb2 _
      (by
        apply not_mem_take_append2 _ _ _ _ (by decide)
        apply not_mem_take_append2 _ _ _ _ hb1
        apply not_mem_take_append2 _ _ _ _ (by decide)
        rw [List.take_append_of_le_length (by decide)]
        decide)]
    rw [containsSkip (str "ATTRS\x7bserial\x7d") (str " (") (by decide)]
    rw [containsSkipChar (str "ATTRS\x7bserial\x7d") 5 '\x7b' (by decide) d.vendorId hb1 _
      (by
        apply not_mem_take_append2 _ _ _ _ (by decide)
        rw [List.take_append_of_le_length (by decide)]
        decide)]
    rw [containsSkip (str "ATTRS\x7bserial\x7d") (str ")\n") (by decide)]
    rw [containsSkip (str "ATTRS\x7bserial\x7d") (str "# Product: ") (by decide)]
    rw [containsSkipChar (str "ATTRS\x7bserial\x7d") 5 '\x7b' (by decide) d.product hb3 _
      (by
        apply not_mem_take_append2 _ _ _ _ (by decide)
        apply not_mem_take_append2 _ _ _ _ (by decide)
        rw [List.take_append_of_le_length (by decide)]
        decide)]
    rw [containsSkip (str "ATTRS\x7bserial\x7d") (str " (") (by decide)]
    rw [containsSkip (str "ATTRS\x7bserial\x7d") (str ")\n") (by decide)]
    rw [containsSkip (str "ATTRS\x7bserial\x7d") (str "# Original: ") (by decide)]
    rw [containsSkipChar (str "ATTRS\x7bserial\x7d") 5 '\x7b' (by decide) d.devPath hb5 _
      (by
        apply not_mem_take_append2 _ _ _ _ (by decide)
        rw [List.take_append_of_le_length (by decide)]
        decide)]
    rw [containsSkip (str "ATTRS\x7bserial\x7d") (str "\n") (by decide)]
    rw [containsSkip (str "ATTRS\x7bserial\x7d") (str "# Created: ") (by decide)]
    rw [containsSkipChar (str "ATTRS\x7bserial\x7d") 5 '\x7b' (by decide) ts hb6 _
      (by
        apply not_mem_take_append2 _ _ _ _ (by decide)
        apply not_mem_take_append2 _ _ _ _ (by decide)
        rw [List.take_append_of_le_length (by decide)]
        decide)]
    rw [containsSkip (str "ATTRS\x7bserial\x7d") (str "\n") (by decide)]
    rw [containsSkip (str "ATTRS\x7bserial\x7d") (str "\n") (by decide)]
    rw [containsSkip (str "ATTRS\x7bserial\x7d")
      (str "SUBSYSTEM==\"tty\", ATTRS\x7bidVendor\x7d==\"") (by decide)]
    rw [containsSkipChar (str "ATTRS\x7bserial\x7d") 5 '\x7b' (by decide) d.vendorId hb1 _
      (by
        rw [List.take_append_of_le_length (by decide)]
        decide)]
    rw [containsSkip (str "ATTRS\x7bserial\x7d") (str "\", ATTRS\x7bidProduct\x7d==\"") (by decide)]
    rw [containsSkip (str "ATTRS\x7bserial\x7d") (str "\"") (by decide)]
    rw [containsSkip (str "ATTRS\x7bserial\x7d") (str ", SYMLINK+=\"") (by decide)]
    rw [containsSkipChar (str "ATTRS\x7bserial\x7d") 5 '\x7b' (by decide) n hbn _ (by decide)]
    decide

/-- C10 witness: the statement applied to a concrete serial-less device. -/
theorem emptyProduct_render_spec_witness :
    deviceNonHexVendor.isValid = true ∧
    (createRule sampleSys deviceNonHexVendor (str "RS485_1") true true (str "d")).1 ≠
      OperationResult.Failure (str "Invalid device information") ∧
    containsSub (generateRuleContent deviceNonHexVendor (str "RS485_1") (str "d"))
      (str "ATTRS\x7bidProduct\x7d==\"\"") = true ∧
    containsSub (generateRuleContent deviceNonHexVendor (str "RS485_1") (str "d"))
      (str "ATTRS\x7bserial\x7d") = false :=
  emptyProduct_render_spec sampleSys deviceNonHexVendor (str "RS485_1") (str "d") true true
    (by decide) (by decide) (by decide) (by decide) (by decide) (by decide) (by decide)
    (by decide) (by decide) (by decide) (by decide)

end easytty
